import Mathlib

/-!
Verification of the Better French Max curation and enhancement engine.

Shallow embedding of the core curation/enhancement code:
  * `src/09_Automated_System/scripts/quality_curator.py` (AutomatedCurator)
  * `src/02_Scripts/news_quality_curator.py` (FrenchNewsQualityCurator)
  * `src/09_Automated_System/scripts/AI-Engine.py` (CostOptimizedAIProcessor)
  * `src/09_Automated_System/config/automation.py` (COST_CONFIG constants)
  * `src/02_Scripts/ai_Processor_Backup.py` (AIService and process_articles)

Modelling conventions:
  * Python floats are modelled as rationals (ℚ): every literal in the scoring
    code is a decimal fraction and every claim is threshold/bound shaped, so no
    claim depends on binary rounding of IEEE floats.
  * Python strings are Lean `String`s; `str.lower()` / `str.isupper()` are
    modelled with ASCII case mapping (`Char.toLower` / `Char.isLower`). The
    code passes through French accented letters, which are caseless in the
    ASCII model; no claim depends on case folding of non-ASCII capitals.
  * Missing dict fields default to the empty string, exactly as the
    `article.get(field) or ...` fallbacks in the code do.
  * I/O (file writes, logging, uuid, timestamps, sleeps) is dropped from the
    state; uuid/timestamp metadata fields of ScoredArticle are omitted since
    they are environment-supplied and no claim mentions them.
-/

/-- Python `needle` starts-with check on character lists (`str.startswith`). -/
def charsStart : List Char → List Char → Bool
  | [], _ => true
  | _ :: _, [] => false
  | n :: ns, h :: hs => n == h && charsStart ns hs

/-- Python substring test `needle in hay` on character lists. -/
def occursIn (needle : List Char) : List Char → Bool
  | [] => charsStart needle []
  | h :: hs => charsStart needle (h :: hs) || occursIn needle hs

/-- Python `needle in hay` on strings. -/
def strContains (hay needle : String) : Bool :=
  occursIn needle.toList hay.toList

/-- Python `str.lower()` (ASCII model; see header). -/
def pyLower (s : String) : String := String.mk (s.data.map Char.toLower)

/-- Maximal runs of characters satisfying `good`, with an accumulator for the
current run (structural recursion so that concrete inputs reduce in the
kernel). -/
def fieldsByAux (good : Char → Bool) : List Char → List Char → List (List Char)
  | cur, [] => if cur.isEmpty then [] else [cur.reverse]
  | cur, c :: cs =>
    if good c then fieldsByAux good (c :: cur) cs
    else if cur.isEmpty then fieldsByAux good [] cs
    else cur.reverse :: fieldsByAux good [] cs

/-- Maximal runs of characters satisfying `good` in a string. -/
def fieldsBy (good : Char → Bool) (s : String) : List String :=
  (fieldsByAux good [] s.data).map String.mk

/-- Python `str.split()` with no argument: split on whitespace runs, dropping
empty pieces. -/
def pySplitWs (s : String) : List String :=
  fieldsBy (fun c => !c.isWhitespace) s

/-- Word characters for the regex `\b` boundary (`\w`): ASCII model of
the Unicode `\w` of Python; no claim depends on accented word characters. -/
def isWordChar (c : Char) : Bool := c.isAlphanum || c == '_'

/-- Maximal `\w+` tokens of a string. -/
def wordTokens (s : String) : List String := fieldsBy isWordChar s

/-- Model of `re.search` for the pattern \b(w1|w2|...)\b: some alternative occurs as a
whole word of `s`. -/
def hasWordAmong (ws : List String) (s : String) : Bool :=
  (wordTokens s).any (fun t => ws.contains t)

/-- Python `str.isupper()` (ASCII model): at least one cased character and no
lowercase one. -/
def pyIsUpper (s : String) : Bool :=
  s.toList.any (fun c => c.isAlpha) && s.toList.all (fun c => !(c.isLower))

/-- The final clamp `max(0, min(10, score))` of every scoring method. -/
def clampQ (x : ℚ) : ℚ := max 0 (min 10 x)

theorem clampQ_nonneg (x : ℚ) : 0 ≤ clampQ x := le_max_left _ _

theorem clampQ_le_ten (x : ℚ) : clampQ x ≤ 10 :=
  max_le (by norm_num) (min_le_left _ _)

theorem clampQ_lower (x b : ℚ) (hb : b ≤ 10) (hx : b ≤ x) : b ≤ clampQ x :=
  le_max_of_le_right (le_min hb hx)

/-! ### difflib.SequenceMatcher

`calculate_similarity` in both curators is
`SequenceMatcher(None, a.lower(), b.lower()).ratio()`.  The model below
implements the documented Ratcliff-Obershelp computation: repeatedly take the
longest matching block (earliest in `a`, then earliest in `b` among maximal
ones — exactly what the `find_longest_match` dynamic program returns with no
junk), recurse on both sides, and return `2*M/T`.  The autojunk "popular
element" heuristic only activates for second sequences of length ≥ 200 and is
not modelled; no claim evaluates similarity of titles/summaries that long. -/

/-- Length of the longest common prefix of two character lists. -/
def commonRun : List Char → List Char → Nat
  | a :: as, b :: bs => if a = b then commonRun as bs + 1 else 0
  | _, _ => 0

/-- Longest matching block `(i, j, k)` of two character lists: `k` maximal,
then `i` minimal, then `j` minimal (the difflib `find_longest_match` with no
junk). -/
def bestMatch (a b : List Char) : Nat × Nat × Nat :=
  (List.range a.length).foldl
    (fun best i =>
      (List.range b.length).foldl
        (fun best j =>
          let k := commonRun (a.drop i) (b.drop j)
          if k > best.2.2 then (i, j, k) else best)
        best)
    (0, 0, 0)

/-- Total number of matched characters over all matching blocks (the `M` of
`ratio`), with explicit fuel; `a.length + b.length` fuel always suffices. -/
def matchTotal : Nat → List Char → List Char → Nat
  | 0, _, _ => 0
  | fuel + 1, a, b =>
    let m := bestMatch a b
    if m.2.2 = 0 then 0
    else
      matchTotal fuel (a.take m.1) (b.take m.2.1) + m.2.2 +
        matchTotal fuel (a.drop (m.1 + m.2.2)) (b.drop (m.2.1 + m.2.2))

/-- difflib `SequenceMatcher.ratio()`: `2*M/T`, and `1.0` when both sequences
are empty. -/
def seqMatchScore (s t : String) : ℚ :=
  let a := s.toList
  let b := t.toList
  let T := a.length + b.length
  if T = 0 then 1 else 2 * (matchTotal T a b : ℚ) / (T : ℚ)

/-! ### Article records and scoring (quality_curator.py lines 138-298)

The scoring methods of `AutomatedCurator` and of
`FrenchNewsQualityCurator` (news_quality_curator.py lines 123-283) are
line-for-line identical, except that the `high_relevance_keywords` set of
the manual curator additionally contains `delf` and `dalf`;
the embedding below follows the automated curator, the primary code source
of the scoring claims, and no claim depends on those two keywords. -/

/-- A raw article record; absent fields are the empty string. -/
structure Article where
  title : String := ""
  summary : String := ""
  content : String := ""
  source_name : String := ""
  category : String := ""
  author : String := ""
  link : String := ""
  urgency_score : ℚ := 0
deriving DecidableEq, Repr, Inhabited

namespace AutomatedCurator

/-- high_relevance_keywords (quality_curator.py lines 58-90). -/
def high_relevance_keywords : List String :=
  [ "immigration", "visa", "carte de séjour", "naturalisation", "préfecture",
    "titre de séjour", "étranger", "expatrié", "résidence", "citoyenneté",
    "sécurité sociale", "caf", "pôle emploi", "impôts", "logement", "santé",
    "transport", "sncf", "ratp", "école", "université", "formation",
    "banque", "assurance", "mutuelle", "médecin", "hôpital",
    "culture française", "tradition", "laïcité", "république", "marianne",
    "gastronomie", "cuisine", "vin", "fromage", "baguette", "café",
    "festival", "patrimoine", "monument", "musée", "art français",
    "gouvernement", "président", "assemblée nationale", "sénat", "maire",
    "conseil municipal", "région", "département", "commune", "élection",
    "réforme", "loi", "décret", "politique sociale",
    "emploi", "chômage", "smic", "salaire", "retraite", "cotisation",
    "entreprise", "startup", "innovation", "économie française", "crise",
    "inflation", "pouvoir d\x27achat", "marché du travail",
    "français langue étrangère", "fle", "apprentissage", "intégration",
    "cours de français", "alliance française",
    "paris", "région parisienne", "province", "métropole", "banlieue",
    "quartier", "arrondissement", "ile-de-france" ]

/-- medium_relevance_keywords (lines 92-108). -/
def medium_relevance_keywords : List String :=
  [ "france", "français", "national", "pays", "état", "société",
    "population", "citoyen", "public", "social", "communauté",
    "actualité", "information", "débat", "polémique", "manifestation",
    "grève", "syndical", "droit", "justice", "tribunal",
    "technologie", "numérique", "internet", "intelligence artificielle",
    "startup française", "innovation française",
    "environnement", "climat", "pollution", "transport public",
    "vélo", "écologie", "recyclage", "énergie" ]

/-- low_relevance_keywords (lines 111-115). -/
def low_relevance_keywords : List String :=
  [ "people", "célébrité", "star", "télé-réalité", "scandale",
    "paparazzi", "instagram", "tiktok", "influenceur",
    "gossip", "rumeur", "vie privée" ]

/-- high_importance_indicators (lines 118-122). -/
def high_importance_indicators : List String :=
  [ "breaking", "urgent", "alerte", "important", "majeur",
    "historique", "exceptionnel", "première fois", "record",
    "crise", "urgence", "décision", "annonce", "officiel" ]

/-- The four quality_indicators keyword groups (lines 125-130). -/
def quality_indicator_groups : List (List String) :=
  [ ["analyse", "enquête", "investigation", "reportage", "dossier"],
    ["expert", "spécialiste", "professeur", "chercheur", "selon"],
    ["source", "témoin", "déclaration", "interview", "entretien"],
    ["contexte", "histoire", "background", "explication", "pourquoi"] ]

/-- The three french_patterns alternation groups of score_quality
(lines 174-178). -/
def french_pattern_groups : List (List String) :=
  [ ["le", "la", "les", "un", "une", "des"],
    ["est", "sont", "était", "sera"],
    ["avec", "dans", "pour", "sur", "par"] ]

/-- poor_indicators of score_quality (line 185). -/
def poor_indicators : List String :=
  ["cliquez", "buzz", "choc", "scandaleux", "incroyable"]

/-- score_quality (quality_curator.py lines 138-197). -/
def score_quality (article : Article) : ℚ :=
  let title := pyLower article.title
  let summary := pyLower article.summary
  let content := pyLower article.content
  let full_text := title ++ " " ++ summary ++ " " ++ content
  let score : ℚ := 5
  let score := if content != "" && content.length > 200 then score + 1 else score
  let score := if summary != "" && summary.length > 50 then score + 1/2 else score
  let score := if article.author != "" then score + 1/2 else score
  let score := score +
    ((quality_indicator_groups.filter
        (fun kws => kws.any (fun k => strContains full_text k))).length : ℚ) * (1/2)
  let score := if (pySplitWs title).length ≥ 5 then score + 3/10 else score
  let score := if [":", "«", "»"].any (fun p => strContains title p)
    then score + 1/5 else score
  let score := if summary != "" && summary != title then score + 1/2 else score
  let french_score : ℚ :=
    ((french_pattern_groups.filter (fun ws => hasWordAmong ws full_text)).length : ℚ)
  let score := score + min 1 (french_score * (1/5))
  let score := if poor_indicators.any (fun k => strContains full_text k)
    then score - 1 else score
  let score := if full_text.length < 100 then score - 1 else score
  let score := if pyIsUpper title then score - 1/2 else score
  clampQ score

/-- relevant_categories of score_relevance (lines 221-224). -/
def relevant_categories : List String :=
  [ "politique", "société", "économie", "france", "national",
    "immigration", "education", "culture", "santé", "social" ]

/-- score_relevance (quality_curator.py lines 199-241). -/
def score_relevance (article : Article) : ℚ :=
  let title := pyLower article.title
  let summary := pyLower article.summary
  let content := pyLower article.content
  let category := pyLower article.category
  let full_text := title ++ " " ++ summary ++ " " ++ content ++ " " ++ category
  let score : ℚ := 3
  let high_matches : ℚ :=
    ((high_relevance_keywords.filter (fun k => strContains full_text k)).length : ℚ)
  let score := score + min 4 (high_matches * (4/5))
  let medium_matches : ℚ :=
    ((medium_relevance_keywords.filter (fun k => strContains full_text k)).length : ℚ)
  let score := score + min 2 (medium_matches * (3/10))
  let score := if relevant_categories.any (fun c => strContains category c)
    then score + 1 else score
  let low_matches : ℚ :=
    ((low_relevance_keywords.filter (fun k => strContains full_text k)).length : ℚ)
  let score := score - min 3 (low_matches * 1)
  let international_indicators := ["états-unis", "chine", "russie", "ukraine", "gaza"]
  let france_context := ["france", "français", "hexagone", "paris", "gouvernement"]
  let score :=
    if international_indicators.any (fun k => strContains full_text k) &&
       !(france_context.any (fun k => strContains full_text k))
    then score - 1 else score
  clampQ score

/-- policy_keywords of score_importance (lines 259-262). -/
def policy_keywords : List String :=
  [ "gouvernement", "ministre", "président", "assemblée", "sénat",
    "loi", "décret", "réforme", "politique", "décision officielle" ]

/-- economic_keywords of score_importance (lines 267-270). -/
def economic_keywords : List String :=
  [ "économie", "emploi", "chômage", "inflation", "prix", "salaire",
    "impôt", "budget", "crise", "marché", "entreprise" ]

/-- social_keywords of score_importance (lines 275-278). -/
def social_keywords : List String :=
  [ "société", "social", "manifestation", "grève", "éducation",
    "santé", "logement", "transport", "sécurité", "justice" ]

/-- reputable_sources of score_importance (lines 283-286). -/
def reputable_sources : List String :=
  [ "le monde", "le figaro", "france info", "france 24", "rfi",
    "libération", "le parisien", "afp" ]

/-- local_indicators of score_importance (line 291). -/
def local_indicators : List String := ["commune", "village", "petit", "local"]

/-- major_cities of score_importance (line 292). -/
def major_cities : List String :=
  ["paris", "lyon", "marseille", "toulouse", "nice", "nantes"]

/-- The full_text scanned by score_importance (quality_curator.py line 252):
`f"{title} {summary} {content}"` over the lowered fields. -/
def importance_full_text (article : Article) : String :=
  pyLower article.title ++ " " ++ pyLower article.summary ++ " " ++
    pyLower article.content

/-- score_importance (quality_curator.py lines 243-298). -/
def score_importance (article : Article) : ℚ :=
  let source := pyLower article.source_name
  let full_text := importance_full_text article
  let score : ℚ := 4
  let score := if high_importance_indicators.any (fun k => strContains full_text k)
    then score + 2 else score
  let score := if policy_keywords.any (fun k => strContains full_text k)
    then score + 2 else score
  let score := if economic_keywords.any (fun k => strContains full_text k)
    then score + 3/2 else score
  let score := if social_keywords.any (fun k => strContains full_text k)
    then score + 3/2 else score
  let score := if reputable_sources.any (fun s => strContains source s)
    then score + 1 else score
  let score :=
    if local_indicators.any (fun k => strContains full_text k) &&
       !(major_cities.any (fun c => strContains full_text c))
    then score - 1 else score
  clampQ score

/-- A scored article (quality_curator.py lines 26-45); the uuid and timestamp
metadata fields and the fast-track flags are environment-supplied and omitted
(no claim mentions them). -/
structure ScoredArticle where
  original_data : Article
  quality_score : ℚ
  relevance_score : ℚ
  importance_score : ℚ
  total_score : ℚ
  rejection_reason : String := ""
deriving DecidableEq, Repr, Inhabited

/-- score_single_article (quality_curator.py lines 353-378). -/
def score_single_article (article : Article) : ScoredArticle :=
  let quality := score_quality article
  let relevance := score_relevance article
  let importance := score_importance article
  { original_data := article
    quality_score := quality
    relevance_score := relevance
    importance_score := importance
    total_score := quality + relevance + importance
    rejection_reason := "" }

/-- calculate_similarity (quality_curator.py lines 300-302). -/
def calculate_similarity (text1 text2 : String) : ℚ :=
  seqMatchScore (pyLower text1) (pyLower text2)

/-- find_duplicates (quality_curator.py lines 304-332): anchor scan grouping
later unprocessed articles whose title similarity with the anchor exceeds the
threshold (default 0.7); this version compares titles only.  The imperative
loop over `i` with its `processed_indices` set is modelled as a fold whose
state is (processed indices, groups so far). -/
def find_duplicates (articles : List Article)
    (similarity_threshold : ℚ := 7/10) : List (List ℕ) :=
  let n := articles.length
  let titleOf := fun i => (articles.getD i default).title
  let step := fun (st : List ℕ × List (List ℕ)) (i : ℕ) =>
    if i ∈ st.1 then st
    else
      let js := (List.range n).filter
        (fun j => decide (i < j) && decide (j ∉ st.1) &&
          decide (calculate_similarity (titleOf i) (titleOf j) > similarity_threshold))
      let group := i :: js
      (st.1 ++ group, if group.length > 1 then st.2 ++ [group] else st.2)
  ((List.range n).foldl step ([], [])).2

/-- The total score of article index `i` as read by select_best_duplicate
(`scores[idx]`; out-of-range indices default to 0, the claims about this
function only concern in-range groups). -/
abbrev score_at (scores : List ℚ) (i : ℕ) : ℚ := scores.getD i 0

/-- The raw content length of article index `i` as read by
select_best_duplicate (`len` of the content field, missing treated as empty). -/
abbrev content_len_at (articles : List Article) (i : ℕ) : ℕ :=
  (articles.getD i default).content.length

/-- The loop body of select_best_duplicate (quality_curator.py lines
340-349): a strictly higher score replaces the running best; an equal score
with strictly longer content replaces it; otherwise the earlier best is
kept. -/
def select_step (articles : List Article) (scores : List ℚ)
    (best idx : ℕ) : ℕ :=
  if score_at scores idx > score_at scores best then idx
  else if score_at scores idx = score_at scores best ∧
      content_len_at articles idx > content_len_at articles best
    then idx else best

/-- select_best_duplicate (quality_curator.py lines 334-351): fold the loop
body over the tail of the index group starting from its head.  On an empty
group the Python code would raise IndexError; the model returns 0, and every
claim about this function assumes a non-empty group. -/
def select_best_duplicate (articles : List Article) (scores : List ℚ)
    (indices : List ℕ) : ℕ :=
  match indices with
  | [] => 0
  | i0 :: rest => rest.foldl (select_step articles scores) i0

/-- Ties with the winner on both score and content length. -/
def tie_with (articles : List Article) (scores : List ℚ) (r i : ℕ) : Bool :=
  decide (score_at scores i = score_at scores r) &&
  decide (content_len_at articles i = content_len_at articles r)

/-- min_total_score of QUALITY_CONFIG (automation.py line 34), read by the
curator from `self.quality_config`. -/
def min_total_score : ℚ := 18

/-- The f-string `f"low_score_{total:.1f}"` of full_curation line 444.  All
scores produced by the scoring methods are exact multiples of 1/10, for which
one-decimal float formatting is exact. -/
def low_score_reason (total : ℚ) : String :=
  let tenths : ℤ := (total * 10).floor
  "low_score_" ++ toString (tenths / 10) ++ "." ++ toString (tenths % 10)

/-- The scored_articles list of full_curation (quality_curator.py
lines 415-419). -/
def scored_list (articles : List Article) : List ScoredArticle :=
  articles.map score_single_article

/-- The total_scores list handed to select_best_duplicate (line 423). -/
def total_scores (articles : List Article) : List ℚ :=
  (scored_list articles).map (fun sa => sa.total_score)

/-- The to_remove set of full_curation (lines 426-431): every member of
every duplicate group except the selected best. -/
def to_remove_list (articles : List Article) : List ℕ :=
  (find_duplicates articles).foldl
    (fun acc group =>
      acc ++ group.filter
        (fun idx =>
          idx ≠ select_best_duplicate articles (total_scores articles) group))
    []

/-- The final record of article `i` after the curated/rejected pass of
full_curation (lines 439-447): duplicate losers get reason "duplicate",
under-threshold survivors get the low_score reason, the rest are untouched. -/
def finalize_article (articles : List Article) (i : ℕ) : ScoredArticle :=
  if i ∈ to_remove_list articles then
    { (scored_list articles).getD i default with rejection_reason := "duplicate" }
  else if ((scored_list articles).getD i default).total_score < min_total_score then
    { (scored_list articles).getD i default with
        rejection_reason :=
          low_score_reason ((scored_list articles).getD i default).total_score }
  else (scored_list articles).getD i default

/-- Whether article `i` lands in the curated list (lines 439-447): neither a
duplicate loser nor under the threshold. -/
def keep_index (articles : List Article) (i : ℕ) : Bool :=
  decide (i ∉ to_remove_list articles) &&
  decide (¬ ((scored_list articles).getD i default).total_score < min_total_score)

/-- full_curation (quality_curator.py lines 403-463): score every article,
find duplicate groups, remove every non-best member of each group, reject
survivors under the threshold, and sort the curated list by total score
descending.  The Python `list.sort(key=..., reverse=True)` is stable; it is
modelled by the stable insertion sort, whose output agrees with every stable
sort for the same total preorder.  The single pass that appends each scored
article to either list is modelled as two index filters over `range n`. -/
def full_curation (articles : List Article) :
    List ScoredArticle × List ScoredArticle :=
  let n := articles.length
  let curated :=
    ((List.range n).filter (keep_index articles)).map (finalize_article articles)
  let rejected :=
    ((List.range n).filter (fun i => !(keep_index articles i))).map
      (finalize_article articles)
  (curated.insertionSort (fun x y => y.total_score ≤ x.total_score), rejected)

end AutomatedCurator

namespace FrenchNewsCurator

/-- calculate_similarity (news_quality_curator.py lines 285-287). -/
def calculate_similarity (text1 text2 : String) : ℚ :=
  seqMatchScore (pyLower text1) (pyLower text2)

/-- The duplicate test of the manual find_duplicates
(news_quality_curator.py lines 311-325): identical non-empty links, or title
similarity > 0.8, or summary similarity > 0.7 with title similarity > 0.5. -/
def is_duplicate_pair (a1 a2 : Article) : Bool :=
  (a1.link != "" && a2.link != "" && a1.link == a2.link) ||
  decide (calculate_similarity a1.title a2.title > 8/10) ||
  (decide (calculate_similarity a1.summary a2.summary > 7/10) &&
   decide (calculate_similarity a1.title a2.title > 5/10))

/-- find_duplicates (news_quality_curator.py lines 289-336): same anchor scan
as the automated curator, but with the three-way duplicate test including the
exact-link shortcut. -/
def find_duplicates (articles : List Article) : List (List ℕ) :=
  let n := articles.length
  let getA := fun i => articles.getD i default
  let step := fun (st : List ℕ × List (List ℕ)) (i : ℕ) =>
    if i ∈ st.1 then st
    else
      let js := (List.range n).filter
        (fun j => decide (i < j) && decide (j ∉ st.1) &&
          is_duplicate_pair (getA i) (getA j))
      let group := i :: js
      (st.1 ++ group, if group.length > 1 then st.2 ++ [group] else st.2)
  ((List.range n).foldl step ([], [])).2

end FrenchNewsCurator

namespace AIEngine

/-- COST_CONFIG max_ai_articles_per_day (automation.py line 87). -/
def max_ai_articles_per_day : ℕ := 100

/-- COST_CONFIG max_ai_calls_per_day (automation.py line 88). -/
def max_ai_calls_per_day : ℕ := 120

/-- COST_CONFIG daily_cost_limit in dollars (automation.py line 102). -/
def daily_cost_limit : ℚ := 25

/-- The cost ledger of the processor: `self.daily_cost` and `self.daily_api_calls`
(AI-Engine.py lines 77-78). -/
structure CostState where
  daily_cost : ℚ := 0
  daily_api_calls : ℕ := 0
deriving DecidableEq, Repr, Inhabited

/-- check_cost_limits (AI-Engine.py lines 104-112): within limits when the
spend is below the daily cost ceiling and the call count below the daily call
ceiling; the human-readable status message is dropped. -/
def check_cost_limits (st : CostState) : Bool :=
  !(decide (st.daily_cost ≥ daily_cost_limit)) &&
  !(decide (st.daily_api_calls ≥ max_ai_calls_per_day))

/-- The per-article loop of batch_process_articles (AI-Engine.py lines
498-513).  process_single_article performs exactly one external call via
call_openrouter_api and returns None on any failure; its outcome is
abstracted as the oracle `proc`, and each attempted article counts one
external call.  The ledger increments of call_openrouter_api (lines 347-350)
sit after `return` statements on every path of the 200-response branch and
are unreachable, so an attempt leaves the CostState unchanged; the loop
therefore re-checks the same ledger before every article, exactly as the
code does.  Returns (enhanced articles in input order, calls attempted). -/
def batch_loop {π : Type} (proc : Article → Option π) (st : CostState) :
    List Article → List π × ℕ
  | [] => ([], 0)
  | a :: rest =>
    if !(check_cost_limits st) then ([], 0)
    else
      let r := batch_loop proc st rest
      match proc a with
      | some p => (p :: r.1, r.2 + 1)
      | none => (r.1, r.2 + 1)

/-- batch_process_articles (AI-Engine.py lines 477-527): an up-front budget
check returning an empty batch when over budget, then the per-article loop
over the first max_ai_articles_per_day articles (rate-limit sleeps and
logging dropped). -/
def batch_process_articles {π : Type} (proc : Article → Option π)
    (st : CostState) (articles : List Article) : List π × ℕ :=
  if !(check_cost_limits st) then ([], 0)
  else batch_loop proc st (articles.take max_ai_articles_per_day)

end AIEngine

namespace BackupProcessor

/-- Default max_retries of AIService._call_llm (ai_Processor_Backup.py
line 320). -/
def max_retries : ℕ := 3

/-- Default inter-attempt delay in seconds of AIService._call_llm
(line 320). -/
def retry_delay : ℕ := 5

/-- Outcome of one _call_llm invocation: the response (None after exhausting
retries), the number of transport attempts made, and the total seconds slept
between attempts. -/
structure CallResult where
  response : Option String
  attempts : ℕ
  slept : ℕ
deriving DecidableEq, Repr

/-- The retry loop of _call_llm (lines 326-344), with the transport outcome
of each attempt abstracted as `responses attempt` (`none` models a raised
exception, timeout or non-success).  A failed attempt other than the last
sleeps `retry_delay` seconds; after the last failed attempt the function
returns None. -/
def call_llm_go (responses : ℕ → Option String) :
    ℕ → ℕ → ℕ → CallResult
  | 0, attempts, slept => ⟨none, attempts, slept⟩
  | remaining + 1, attempts, slept =>
    match responses attempts with
    | some s => ⟨some s, attempts + 1, slept⟩
    | none =>
      if remaining = 0 then ⟨none, attempts + 1, slept⟩
      else call_llm_go responses remaining (attempts + 1) (slept + retry_delay)

/-- _call_llm (ai_Processor_Backup.py lines 320-344) with the default
max_retries; the client-not-initialized early return (lines 322-324) is the
`hasClient = false` branch of the caller. -/
def call_llm (responses : ℕ → Option String) : CallResult :=
  call_llm_go responses max_retries 0 0

/-- The four title/summary fields of the content records produced by
AIService.  The contextual_title_explanations list also present in the
records is outside every claim about these fields and is not modelled. -/
structure GenContent where
  simplified_english_title : String
  simplified_french_title : String
  english_summary : String
  french_summary : String
deriving DecidableEq, Repr, Inhabited

/-- Python `str.strip()`: drop leading and trailing whitespace. -/
def pyStrip (s : String) : String :=
  String.mk (((s.data.dropWhile Char.isWhitespace).reverse.dropWhile
    Char.isWhitespace).reverse)

/-- The characters after the first occurrence of `needle`, or `none` when it
does not occur (the anchor step of `re.search(label + "(.*)", s)`). -/
def dropAfterFirst (needle : List Char) : List Char → Option (List Char)
  | [] => if needle.isEmpty then some [] else none
  | c :: cs =>
    if charsStart needle (c :: cs) then some ((c :: cs).drop needle.length)
    else dropAfterFirst needle cs

/-- Model of `re.search(label + r"(.*)", resp).group(1).strip()` without
re.DOTALL (used for the two title labels, lines 383-388): capture to the end
of the line. -/
def search_label_line (label resp : String) : Option String :=
  (dropAfterFirst label.data resp.data).map
    (fun r => pyStrip (String.mk (r.takeWhile (fun c => c ≠ '\n'))))

/-- Model of `re.search(label + r"(.*)", resp, re.DOTALL).group(1).strip()`
(used for the two summary labels, lines 413-418): capture to the end of the
response. -/
def search_label_all (label resp : String) : Option String :=
  (dropAfterFirst label.data resp.data).map (fun r => pyStrip (String.mk r))

/-- The parse-failure default for the simplified English title (line 378). -/
def eng_title_default : String :=
  "Placeholder simplified English title (LLM error or not implemented)"

/-- The parse-failure default for the simplified French title (line 379). -/
def fr_title_default : String :=
  "Placeholder simplified French title (LLM error or not implemented)"

/-- The parse-failure default for the English summary (line 409). -/
def eng_summary_default : String :=
  "Placeholder English summary (LLM error or not implemented)"

/-- The parse-failure default for the French summary (line 410). -/
def fr_summary_default : String :=
  "Placeholder French summary (LLM error or not implemented)"

/-- _get_placeholder_content (lines 474-484), restricted to the four
title/summary fields. -/
def get_placeholder_content (title : String) : GenContent :=
  { simplified_english_title :=
      "Placeholder simplified English title for " ++ title
    simplified_french_title :=
      "Placeholder simplified French title for " ++ title
    english_summary := "Placeholder English summary for " ++ title ++
      ". The full content would be generated by an AI model."
    french_summary := "Placeholder French summary for " ++ title ++
      " (en Français). Le contenu complet serait généré par un modèle IA." }

/-- The pre_designed_data seed set of AIService (ai_Processor_Backup.py
lines 47-299), restricted to the four title/summary fields; keys are the
original titles.  Generated verbatim from the source literal. -/
def pre_designed_data : List (String × GenContent) :=
  [
    ( "Droits de douane : ces options sur la table de Donald Trump après son revers judiciaire",
      { simplified_english_title :=
          "Trump\x27s Tariff Options After Legal Setback"
        simplified_french_title :=
          "Droits de douane : les options de Trump après sa défaite judiciaire"
        english_summary :=
          "Following a US International Trade Commission ruling that suspended some of his administration\x27s tariffs, Donald Trump is exploring alternative legal avenues to maintain or reimpose them. The article discusses various trade laws and emergency acts Trump might leverage, such as Section 232 (national security) or Section 301 of the Trade Act of 1974 (unfair trade practices), and the constitutional debate around presidential authority in setting tariffs versus Congress. The White House is preparing a Plan B, potentially involving a two-step approach using different sections of trade law, while also considering asking Congress to legislate stronger tariff powers, though this path is politically challenging."
        french_summary :=
          "Suite à une décision de justice suspendant certains tarifs douaniers, Donald Trump examine d\x27autres options légales pour les maintenir. L\x27article explore les lois commerciales et les pouvoirs d\x27urgence que Trump pourrait utiliser, comme la Section 232 (sécurité nationale) ou la Section 301 de la Loi sur le Commerce de 1974 (pratiques commerciales déloyales). Il aborde aussi le débat constitutionnel sur l\x27autorité présidentielle face au Congrès en matière de tarifs. La Maison Blanche prépare un plan alternatif, et envisage de demander au Congrès de renforcer les lois sur les tarifs, bien que cela soit politiquement difficile." } ),
    ( "Donald Trump et le Qatar : les dessous d\x27une opération séduction très stratégique",
      { simplified_english_title :=
          "Trump & Qatar: Examining a Strategic Attempt to Build Goodwill"
        simplified_french_title :=
          "Trump et le Qatar : analyse d\x27une opération de charme stratégique"
        english_summary :=
          "This article delves into the evolving relationship between Donald Trump and Qatar, highlighting a strategic charm offensive by the Gulf nation. Despite past accusations from Trump about Qatar funding terrorism, recent interactions, including a state visit and significant economic deals (like Qatar Airways purchasing Boeing aircraft), signal a significant shift. Qatar aims to secure its position as a key US ally in the Middle East, leveraging its mediating role in regional conflicts (e.g., with Iran, Hamas) and its large US investments. The article notes Qatar\x27s desire to avoid a repeat of the 2017 blockade and its pragmatic approach to maintaining strong ties with the Trump administration, illustrated by gestures like the (controversial) gift of a Boeing 747-8 and business deals involving Trump\x27s family."
        french_summary :=
          "L\x27article examine l\x27évolution des relations entre Donald Trump et le Qatar, soulignant une offensive de charme stratégique de la part de la nation du Golfe. Malgré des accusations passées de Trump concernant le financement du terrorisme par le Qatar, des interactions récentes, y compris une visite d\x27État et d\x27importants accords économiques (comme l\x27achat d\x27avions Boeing par Qatar Airways), indiquent un changement significatif. Le Qatar cherche à consolider sa position d\x27allié clé des États-Unis au Moyen-Orient, en tirant parti de son rôle de médiateur dans les conflits régionaux (par exemple, avec l\x27Iran, le Hamas) et de ses importants investissements aux États-Unis. L\x27article note le désir du Qatar d\x27éviter une répétition du blocus de 2017 et son approche pragmatique pour maintenir des liens solides avec l\x27administration Trump, illustrée par des gestes comme le don (controversé) d\x27un Boeing 747-8 et des accords commerciaux impliquant la famille Trump." } ),
    ( "EXCLUSIF. Des cadres des Verts plaident pour adhérer à BDS, mouvement controversé de boycott d\x27Israël",
      { simplified_english_title :=
          "French Green Party Leaders Advocate Joining Controversial BDS Movement Against Israel"
        simplified_french_title :=
          "EXCLUSIF. Des responsables Verts pour l\x27adhésion au BDS, mouvement de boycott d\x27Israël controversé"
        english_summary :=
          "This exclusive report reveals that some leading members of the French Green Party (Les Verts/EELV) are pushing for the party to officially join the BDS (Boycott, Divestment, Sanctions) movement, a controversial campaign aimed at boycotting Israel. The article highlights internal debates and recent incidents within the party related to antisemitism and views on the Israeli-Palestinian conflict, including controversial statements by party members. The proposal to join BDS, supported by figures like parliamentary group president Cyrielle Châtelain, is contentious even within the party, especially given past problematic actions by some local BDS branches. This move comes at a sensitive time for the party as it navigates complex issues and internal divisions."
        french_summary :=
          "Cet article exclusif révèle que certains dirigeants du parti Les Verts (EELV) militent pour que le parti rejoigne officiellement le mouvement BDS (Boycott, Désinvestissement, Sanctions), une campagne controversée visant à boycotter Israël. L\x27article met en lumière les débats internes et les incidents récents au sein du parti liés à l\x27antisémitisme et aux opinions sur le conflit israélo-palestinien, y compris des déclarations controversées de membres du parti. La proposition de rejoindre le BDS, soutenue par des personnalités comme la présidente du groupe parlementaire Cyrielle Châtelain, est contestée même au sein du parti, notamment en raison d\x27actions problématiques passées de certaines branches locales du BDS. Cette démarche intervient à un moment sensible pour le parti, qui navigue entre des questions complexes et des divisions internes." } ),
    ( "Présidentielle en Pologne : l\x27élection qui donne des sueurs froides à Bruxelles",
      { simplified_english_title :=
          "Polish Presidential Election: A Vote Causing Anxiety in Brussels (EU)"
        simplified_french_title :=
          "Présidentielle polonaise : l\x27élection qui inquiète Bruxelles"
        english_summary :=
          "The upcoming Polish presidential election is a source of significant concern for Brussels (representing the EU). The run-off features two candidates with starkly different visions for Poland\x27s future and its relationship with the EU: Rafal Trzaskowski, the pro-European mayor of Warsaw, versus Karol Nawrocki, a nationalist conservative backed by the Law and Justice (PiS) party. A victory for Nawrocki could undermine the current centrist government\x27s reforms and potentially shift Poland towards a more anti-EU stance, aligning with countries like Hungary. Conversely, a Trzaskowski win would likely strengthen Poland\x27s pro-EU trajectory. The EU has subtly supported Trzaskowski by releasing previously blocked funds to Poland and not opposing certain Polish policies, highlighting the strategic importance of this election for the EU\x27s future and its eastern flank, especially given Poland\x27s growing influence since the war in Ukraine."
        french_summary :=
          "L\x27élection présidentielle en Pologne est une source de préoccupation majeure pour Bruxelles (représentant l\x27UE). Le second tour oppose deux candidats aux visions radicalement différentes pour l\x27avenir de la Pologne et ses relations avec l\x27UE : Rafal Trzaskowski, le maire pro-européen de Varsovie, contre Karol Nawrocki, un conservateur nationaliste soutenu par le parti Droit et Justice (PiS). Une victoire de Nawrocki pourrait saper les réformes du gouvernement centriste actuel et potentiellement orienter la Pologne vers une position plus anti-UE, s\x27alignant sur des pays comme la Hongrie. Inversement, une victoire de Trzaskowski renforcerait probablement la trajectoire pro-européenne de la Pologne. L\x27UE a subtilement soutenu Trzaskowski en débloquant des fonds précédemment retenus et en ne s\x27opposant pas à certaines politiques polonaises, soulignant l\x27importance stratégique de cette élection pour l\x27avenir de l\x27UE et son flanc oriental, surtout compte tenu de l\x27influence croissante de la Pologne depuis la guerre en Ukraine." } ),
    ( "Droits de douane : ces cinq petites entreprises qui ont mis un frein à la machine Trump",
      { simplified_english_title :=
          "Tariffs: Five Small Businesses That Slowed the Trump Machine"
        simplified_french_title :=
          "Droits de douane : cinq PME freinent la machine Trump"
        english_summary :=
          "This article highlights how five small American businesses, from diverse sectors like wine importing and fishing gear retail, successfully challenged Donald Trump\x27s tariff policies. Backed by the Liberty Justice Center, these companies filed a lawsuit arguing that the president overstepped his authority by imposing widespread tariffs without congressional approval, citing the negative impact on their operations due to cost uncertainty and supply chain disruptions. A federal trade court initially sided with them, blocking the tariffs, though an appeal court later granted a temporary stay, allowing the tariffs to continue for now. The case underscores the constitutional debate over executive power in trade policy and the significant economic pressure tariffs can place on small enterprises."
        french_summary :=
          "Cet article met en lumière comment cinq petites entreprises américaines, de secteurs variés comme l\x27importation de vin et la vente d\x27articles de pêche, ont contesté avec succès la politique tarifaire de Donald Trump. Soutenues par le Liberty Justice Center, ces sociétés ont intenté un procès arguant que le président avait outrepassé son autorité en imposant des tarifs généralisés sans l\x27approbation du Congrès, citant l\x27impact négatif sur leurs opérations en raison de l\x27incertitude des coûts et des perturbations des chaînes d\x27approvisionnement. Un tribunal fédéral du commerce leur a initialement donné raison, bloquant les tarifs, bien qu\x27une cour d\x27appel ait ensuite accordé un sursis temporaire, permettant aux tarifs de se poursuivre pour le moment. L\x27affaire souligne le débat constitutionnel sur le pouvoir exécutif en matière de politique commerciale et la pression économique importante que les tarifs peuvent exercer sur les petites entreprises." } ),
    ( "Etats-Unis : la Cour d\x27appel maintient les droits de douane de Donald Trump",
      { simplified_english_title :=
          "USA: Appeals Court Upholds Trump\x27s Tariffs (For Now)"
        simplified_french_title :=
          "États-Unis : la Cour d\x27appel maintient les tarifs de Trump"
        english_summary :=
          "In a swift reversal, a U.S. appeals court granted an emergency stay, temporarily maintaining Donald Trump\x27s controversial tariffs that had been blocked by a lower court just a day earlier. The lower court had ruled that Trump overstepped his authority by imposing these tariffs without congressional approval. The Trump administration immediately appealed, leading to this temporary reinstatement while the case is considered on its merits. Trump criticized the initial ruling as politically motivated, while countries like China and Canada had welcomed it. The legal battle highlights the ongoing debate about presidential powers in trade policy and the economic impact of these tariffs."
        french_summary :=
          "Dans un revirement rapide, une cour d\x27appel américaine a accordé un sursis d\x27urgence, maintenant temporairement les tarifs douaniers controversés de Donald Trump qui avaient été bloqués par un tribunal inférieur la veille. Le tribunal inférieur avait jugé que Trump avait outrepassé son autorité en imposant ces tarifs sans l\x27approbation du Congrès. L\x27administration Trump a immédiatement fait appel, conduisant à ce rétablissement temporaire pendant que l\x27affaire est examinée sur le fond. Trump a critiqué la décision initiale comme étant politiquement motivée, tandis que des pays comme la Chine et le Canada l\x27avait saluée. La bataille juridique met en lumière le débat actuel sur les pouvoirs présidentiels en matière de politique commerciale et l\x27impact économique de ces tarifs." } ),
    ( "Guerre à Gaza : Benyamin Netanyahou, le grand divorce avec les Israéliens",
      { simplified_english_title :=
          "Gaza War: Netanyahu\x27s Growing Disconnect with Israelis"
        simplified_french_title :=
          "Guerre à Gaza : Netanyahou, le fossé grandissant avec les Israéliens"
        english_summary :=
          "The article discusses a growing rift between Israeli Prime Minister Benjamin Netanyahu and a significant portion of the Israeli public regarding the war in Gaza and the handling of the hostage situation. While Netanyahu maintains a hardline stance, prioritizing the eradication of Hamas and projecting strength, public opinion polls show declining trust in his leadership and a majority favoring a deal for hostage release, even if it means stopping the war. The article highlights symbolic actions by Netanyahu to appeal to his right-wing base, contrasting with the anguish of hostage families and growing criticism from parts of Israeli society about the humanitarian impact of the war. Internal political challenges, including friction with the Attorney General, also add to the pressure on Netanyahu, who remains reliant on his solid coalition and hopes for a military victory to regain public support."
        french_summary :=
          "L\x27article traite d\x27un fossé grandissant entre le Premier ministre israélien Benyamin Netanyahou et une part importante de l\x27opinion publique israélienne concernant la guerre à Gaza et la gestion de la situation des otages. Alors que Netanyahou maintient une ligne dure, priorisant l\x27éradication du Hamas et projetant une image de force, les sondages d\x27opinion montrent une baisse de confiance dans son leadership et une majorité favorable à un accord pour la libération des otages, même si cela implique l\x27arrêt de la guerre. L\x27article souligne les actions symboliques de Netanyahou pour séduire sa base de droite, contrastant avec l\x27angoisse des familles d\x27otages et les critiques croissantes d\x27une partie de la société israélienne sur l\x27impact humanitaire de la guerre. Des défis politiques internes, y compris des frictions avec la procureure générale, ajoutent également à la pression sur Netanyahou, qui reste dépendant de sa solide coalition et espère une victoire militaire pour regagner le soutien public." } ),
    ( "Louis Sarkozy : \"J\x27aurais préféré mourir à 25 ans sous Auguste qu\x27à 80 ans dans le monde d\x27aujourd\x27hui\"",
      { simplified_english_title :=
          "Louis Sarkozy: \"I\x27d Prefer Death at 25 under Emperor Augustus than at 80 Today\""
        simplified_french_title :=
          "Louis Sarkozy : \"Plutôt mourir à 25 ans sous Auguste qu\x27à 80 ans aujourd\x27hui\""
        english_summary :=
          "This article features an interview with Louis Sarkozy, son of former French President Nicolas Sarkozy. He expresses a striking sentiment, stating he would have preferred to die young in the era of Roman Emperor Augustus rather than live to old age in the modern world. This controversial statement likely serves as a springboard to discuss his views on contemporary society, values, and perhaps a romanticized perception of the past compared to present-day challenges and disillusionments. The interview probably explores his personal philosophy and critiques of modern life."
        french_summary :=
          "Cet article présente une interview de Louis Sarkozy, fils de l\x27ancien président français Nicolas Sarkozy. Il exprime un sentiment frappant, déclarant qu\x27il aurait préféré mourir jeune à l\x27époque de l\x27empereur romain Auguste plutôt que de vivre jusqu\x27à un âge avancé dans le monde moderne. Cette déclaration controversée sert probablement de tremplin pour discuter de ses opinions sur la société contemporaine, les valeurs, et peut-être une perception romancée du passé par rapport aux défis et désillusions actuels. L\x27interview explore probablement sa philosophie personnelle et ses critiques de la vie moderne." } ),
    ( "Face à la Chine, l\x27Europe en quête d\x27une nouvelle stratégie industrielle",
      { simplified_english_title :=
          "Facing China, Europe Seeks New Industrial Strategy"
        simplified_french_title :=
          "Face à la Chine, l\x27Europe cherche une nouvelle stratégie industrielle"
        english_summary :=
          "The European Union is currently reassessing its industrial strategy in response to the growing economic and technological power of China. This involves discussions on how to enhance Europe\x27s competitiveness, ensure strategic autonomy in key sectors (like technology, raw materials, and green energy), and address challenges posed by China\x27s state-led capitalism and trade practices. The article likely explores various policy options being considered, such as investing in innovation, strengthening trade defense instruments, and fostering \x27European champions\x27 to compete globally while navigating the complex geopolitical landscape."
        french_summary :=
          "L\x27Union européenne réévalue actuellement sa stratégie industrielle en réponse à la puissance économique et technologique croissante de la Chine. Cela implique des discussions sur la manière d\x27améliorer la compétitivité de l\x27Europe, d\x27assurer une autonomie stratégique dans des secteurs clés (comme la technologie, les matières premières et l\x27énergie verte), et de relever les défis posés par le capitalisme d\x27État et les pratiques commerciales de la Chine. L\x27article explore probablement diverses options politiques envisagées, telles que l\x27investissement dans l\x27innovation, le renforcement des instruments de défense commerciale et la promotion de \x27champions européens\x27 pour rivaliser à l\x27échelle mondiale tout en naviguant dans un paysage géopolitique complexe." } ),
    ( "IA générative : pourquoi la France est en train de perdre la bataille face aux Etats-Unis",
      { simplified_english_title :=
          "Generative AI: Why France is Losing the Battle to the US"
        simplified_french_title :=
          "IA générative : la France perd-elle la course face aux USA ?"
        english_summary :=
          "This article argues that France is falling behind the United States in the field of generative Artificial Intelligence (AI). It likely examines factors such as investment levels, research and development capacity, talent attraction and retention, and the regulatory environment. The piece may compare the dynamism of the US tech scene, particularly in AI, with the French ecosystem, highlighting challenges France faces in fostering innovation and scaling up AI companies to compete with American giants. Potential solutions or national strategies to bolster France\x27s AI capabilities might also be discussed."
        french_summary :=
          "Cet article soutient que la France prend du retard sur les États-Unis dans le domaine de l\x27intelligence artificielle (IA) générative. Il examine probablement des facteurs tels que les niveaux d\x27investissement, la capacité de recherche et développement, l\x27attraction et la rétention des talents, et l\x27environnement réglementaire. L\x27article pourrait comparer le dynamisme de la scène technologique américaine, en particulier en IA, avec l\x27écosystème français, soulignant les défis auxquels la France est confrontée pour favoriser l\x27innovation et développer des entreprises d\x27IA capables de rivaliser avec les géants américains. Des solutions potentielles ou des stratégies nationales pour renforcer les capacités de la France en matière d\x27IA pourraient également être discutées." } ),
    ( "Réforme des retraites : le gouvernement face au mur de la dette",
      { simplified_english_title :=
          "Pension Reform: Government Confronts Debt Wall"
        simplified_french_title :=
          "Réforme des retraites : le gouvernement face à la dette"
        english_summary :=
          "The French government is grappling with the challenge of pension reform amidst concerns about the country\x27s significant national debt. The article likely discusses the financial pressures on the pension system, the government\x27s proposals to ensure its long-term viability (which often include measures like raising the retirement age or adjusting contributions), and the political and social opposition these reforms typically generate. The \x27debt wall\x27 metaphor suggests an urgent and formidable financial obstacle that the government must address through these potentially unpopular measures."
        french_summary :=
          "Le gouvernement français est aux prises avec le défi de la réforme des retraites dans un contexte d\x27inquiétude concernant l\x27importante dette nationale du pays. L\x27article discute probablement des pressions financières sur le système de retraite, des propositions du gouvernement pour assurer sa viabilité à long terme (qui incluent souvent des mesures comme l\x27augmentation de l\x27âge de la retraite ou l\x27ajustement des cotisations), et de l\x27opposition politique et sociale que ces réformes suscitent généralement. La métaphore du \x27mur de la dette\x27 suggère un obstacle financier urgent et redoutable que le gouvernement doit surmonter par ces mesures potentiellement impopulaires." } ),
    ( "Inflation : les prix alimentaires vont-ils enfin baisser ?",
      { simplified_english_title :=
          "Inflation: Will Food Prices Finally Decrease?"
        simplified_french_title :=
          "Inflation : les prix alimentaires vont-ils baisser ?"
        english_summary :=
          "This article addresses the pressing question of whether food prices in France will start to decrease after a period of high inflation. It likely analyzes the factors contributing to the rise in food costs (e.g., energy prices, supply chain issues, agricultural costs) and examines any recent trends or government measures that might lead to a reduction. The piece may also discuss the impact of food inflation on households and the broader economic outlook concerning price stability."
        french_summary :=
          "Cet article aborde la question pressante de savoir si les prix alimentaires en France vont commencer à baisser après une période de forte inflation. Il analyse probablement les facteurs contribuant à la hausse des coûts alimentaires (par exemple, les prix de l\x27énergie, les problèmes de chaîne d\x27approvisionnement, les coûts agricoles) et examine les tendances récentes ou les mesures gouvernementales qui pourraient entraîner une réduction. L\x27article pourrait également discuter de l\x27impact de l\x27inflation alimentaire sur les ménages et des perspectives économiques plus larges concernant la stabilité des prix." } ),
    ( "Climat : la France peut-elle atteindre ses objectifs de réduction d\x27émissions ?",
      { simplified_english_title :=
          "Climate: Can France Meet Its Emission Reduction Targets?"
        simplified_french_title :=
          "Climat : la France peut-elle atteindre ses objectifs d\x27émissions ?"
        english_summary :=
          "The article examines whether France is on track to meet its stated goals for reducing greenhouse gas emissions to combat climate change. It likely assesses current progress, analyzes the effectiveness of existing policies (in sectors like transport, energy, industry, and housing), and identifies challenges or gaps that might prevent France from achieving its targets. The piece might also discuss the economic and social implications of the transition to a lower-carbon economy and compare France\x27s efforts with international commitments."
        french_summary :=
          "L\x27article examine si la France est en bonne voie pour atteindre ses objectifs déclarés de réduction des émissions de gaz à effet de serre afin de lutter contre le changement climatique. Il évalue probablement les progrès actuels, analyse l\x27efficacité des politiques existantes (dans des secteurs comme les transports, l\x27énergie, l\x27industrie et le logement), et identifie les défis ou les lacunes qui pourraient empêcher la France d\x27atteindre ses objectifs. L\x27article pourrait également discuter des implications économiques et sociales de la transition vers une économie à faible émission de carbone et comparer les efforts de la France avec les engagements internationaux." } ),
    ( "JO 2024 : à un an de l\x27événement, Paris est-elle prête ?",
      { simplified_english_title :=
          "Paris Olympics 2024: One Year Out, Is the City Ready?"
        simplified_french_title :=
          "JO 2024 : Paris est-elle prête à un an de l\x27échéance ?"
        english_summary :=
          "With one year remaining before the 2024 Olympic Games in Paris, this article assesses the city\x27s preparedness. It likely covers progress on venue construction, infrastructure development (especially transport), security arrangements, and logistical planning. Potential challenges such as budget concerns, public support, transportation capacity during the games, and security risks might also be examined. The piece aims to provide an overview of whether Paris is on schedule to host a successful Olympic Games."
        french_summary :=
          "À un an des Jeux Olympiques de 2024 à Paris, cet article évalue l\x27état de préparation de la ville. Il couvre probablement les progrès de la construction des sites, le développement des infrastructures (en particulier les transports), les dispositions de sécurité et la planification logistique. Les défis potentiels tels que les préoccupations budgétaires, le soutien public, la capacité des transports pendant les jeux et les risques de sécurité pourraient également être examinés. L\x27article vise à donner un aperçu de la capacité de Paris à organiser avec succès les Jeux Olympiques dans les délais impartis." } ),
    ( "Immigration : le projet de loi du gouvernement contesté de toutes parts",
      { simplified_english_title :=
          "Immigration: Government\x27s Bill Faces Widespread Opposition"
        simplified_french_title :=
          "Immigration : le projet de loi gouvernemental largement contesté"
        english_summary :=
          "The French government\x27s proposed immigration bill is encountering strong opposition from various groups across the political spectrum and civil society. The article likely details the key provisions of the bill, the government\x27s rationale for it, and the specific criticisms being leveled against it. These criticisms could come from left-leaning groups concerned about human rights and a more restrictive approach, as well as from right-leaning factions who might deem the measures insufficient. The piece will probably explore the political debate surrounding the bill and its chances of passing through parliament."
        french_summary :=
          "Le projet de loi sur l\x27immigration du gouvernement français rencontre une forte opposition de la part de divers groupes de l\x27échiquier politique et de la société civile. L\x27article détaille probablement les dispositions clés du projet de loi, la justification du gouvernement, et les critiques spécifiques formulées à son encontre. Ces critiques pourraient émaner de groupes de gauche préoccupés par les droits de l\x27homme et une approche plus restrictive, ainsi que de factions de droite qui pourraient juger les mesures insuffisantes. L\x27article explorera probablement le débat politique entourant le projet de loi et ses chances d\x27être adopté par le parlement." } ),
    ( "Education : la crise du recrutement des enseignants s\x27aggrave",
      { simplified_english_title :=
          "Education: Teacher Recruitment Crisis Worsens"
        simplified_french_title :=
          "Éducation : la crise du recrutement des enseignants s\x27intensifie"
        english_summary :=
          "France is facing a worsening crisis in recruiting new teachers for its education system. This article likely explores the reasons behind the teacher shortage, such as declining attractiveness of the profession, salary concerns, working conditions, and difficulties in certain subjects or regions. It may also discuss the consequences of this crisis on the quality of education and the measures being considered or implemented by the government to address the shortfall, such as recruitment drives, improved training, or better incentives."
        french_summary :=
          "La France est confrontée à une aggravation de la crise du recrutement de nouveaux enseignants pour son système éducatif. Cet article explore probablement les raisons de cette pénurie d\x27enseignants, telles que la baisse de l\x27attractivité de la profession, les préoccupations salariales, les conditions de travail et les difficultés dans certaines matières ou régions. Il pourrait également discuter des conséquences de cette crise sur la qualité de l\x27éducation et des mesures envisagées ou mises en œuvre par le gouvernement pour pallier ce manque, telles que des campagnes de recrutement, une meilleure formation ou de meilleures incitations." } ),
    ( "Santé : les déserts médicaux, une fracture française",
      { simplified_english_title :=
          "Health: Medical Deserts - A French Divide"
        simplified_french_title :=
          "Santé : les déserts médicaux, une fracture en France"
        english_summary :=
          "The article discusses the issue of \x27medical deserts\x27 in France, referring to areas (often rural or underserved urban zones) with a severe shortage of doctors and healthcare professionals. This \x27fracture\x27 highlights inequalities in access to healthcare across the country. The piece likely examines the causes of this problem (e.g., uneven distribution of practitioners, difficulties in attracting doctors to certain areas) and its consequences for local populations. Potential solutions, such as financial incentives for doctors, telemedicine, or changes in healthcare organization, might also be explored."
        french_summary :=
          "L\x27article traite du problème des \x27déserts médicaux\x27 en France, désignant des zones (souvent rurales ou des zones urbaines défavorisées) souffrant d\x27une grave pénurie de médecins et de professionnels de santé. Cette \x27fracture\x27 met en lumière les inégalités d\x27accès aux soins de santé à travers le pays. L\x27article examine probablement les causes de ce problème (par exemple, la répartition inégale des praticiens, les difficultés à attirer des médecins dans certaines régions) et ses conséquences pour les populations locales. Des solutions potentielles, telles que des incitations financières pour les médecins, la télémédecine ou des changements dans l\x27organisation des soins de santé, pourraient également être explorées." } ),
    ( "Logement : la crise de la construction s\x27intensifie",
      { simplified_english_title :=
          "Housing: Construction Crisis Worsens in France"
        simplified_french_title :=
          "Logement : la crise de la construction s\x27aggrave"
        english_summary :=
          "The French housing sector is experiencing a deepening construction crisis. This article likely examines the factors contributing to this downturn, such as rising material costs, labor shortages, stricter environmental regulations, and difficulties in obtaining financing or building permits. The impact on housing availability, affordability, and the broader economy (e.g., employment in the construction sector) will probably be discussed, along with potential government responses or industry initiatives to stimulate construction."
        french_summary :=
          "Le secteur français du logement traverse une crise de la construction qui s\x27accentue. Cet article examine probablement les facteurs contribuant à ce ralentissement, tels que la hausse des coûts des matériaux, les pénuries de main-d\x27œuvre, des réglementations environnementales plus strictes et les difficultés d\x27obtention de financements ou de permis de construire. L\x27impact sur la disponibilité et l\x27accessibilité des logements, ainsi que sur l\x27économie au sens large (par exemple, l\x27emploi dans le secteur de la construction), sera probablement discuté, de même que les éventuelles réponses gouvernementales ou initiatives du secteur pour stimuler la construction." } ),
    ( "Sécheresse : des restrictions d\x27eau à prévoir cet été ?",
      { simplified_english_title :=
          "Drought: Water Restrictions Expected This Summer?"
        simplified_french_title :=
          "Sécheresse : restrictions d\x27eau à prévoir cet été ?"
        english_summary :=
          "This article discusses the likelihood of water restrictions being imposed in France during the upcoming summer due to drought conditions. It probably analyzes current water reserve levels, weather forecasts, and the impact of previous dry periods. The piece might also detail what types of restrictions could be implemented (e.g., on irrigation, car washing, filling swimming pools), which regions are most at risk, and the broader implications for agriculture, environment, and daily life. Preventative measures or long-term strategies to manage water resources in the face of climate change could also be touched upon."
        french_summary :=
          "Cet article discute de la probabilité que des restrictions d\x27eau soient imposées en France pendant l\x27été à venir en raison de la sécheresse. Il analyse probablement les niveaux actuels des réserves d\x27eau, les prévisions météorologiques et l\x27impact des périodes sèches précédentes. L\x27article pourrait également détailler quels types de restrictions pourraient être mises en œuvre (par exemple, sur l\x27irrigation, le lavage des voitures, le remplissage des piscines), quelles régions sont les plus menacées, et les implications plus larges pour l\x27agriculture, l\x27environnement et la vie quotidienne. Des mesures préventives ou des stratégies à long terme pour gérer les ressources en eau face au changement climatique pourraient également être abordées." } ),
    ( "Tourisme : la France, destination favorite des étrangers malgré des prix en hausse",
      { simplified_english_title :=
          "Tourism: France Remains Top Foreign Destination Despite Rising Prices"
        simplified_french_title :=
          "Tourisme : la France, destination préférée malgré des prix élevés"
        english_summary :=
          "Despite increasing prices, France continues to be the most popular tourist destination for international visitors. This article likely explores the enduring appeal of France (e.g., its culture, landmarks, cuisine, diverse regions) that keeps attracting tourists even as costs rise. It might also touch upon the economic impact of tourism, challenges such as overtourism in some areas, and strategies being employed to maintain France\x27s leading position in the global tourism market. The piece could also compare current tourism figures with pre-pandemic levels."
        french_summary :=
          "Malgré l\x27augmentation des prix, la France continue d\x27être la destination touristique la plus populaire pour les visiteurs internationaux. Cet article explore probablement l\x27attrait durable de la France (par exemple, sa culture, ses monuments, sa cuisine, la diversité de ses régions) qui continue d\x27attirer les touristes même si les coûts augmentent. Il pourrait également aborder l\x27impact économique du tourisme, les défis tels que le surtourisme dans certaines régions, et les stratégies employées pour maintenir la position de leader de la France sur le marché mondial du tourisme. L\x27article pourrait également comparer les chiffres actuels du tourisme avec les niveaux d\x27avant la pandémie." } )
  ]

/-- Seed-set lookup, `original_title in self.pre_designed_data` followed by
`self.pre_designed_data[original_title]` (lines 352-354). -/
def lookup_seed (original_title : String) : Option GenContent :=
  (pre_designed_data.find? (fun e => e.1 == original_title)).map (fun e => e.2)

/-- get_ai_generated_content (ai_Processor_Backup.py lines 346-472),
restricted to the four title/summary fields: return the seed entry when the
title is in the pre-verified seed set; without a client return the marked
placeholder content; otherwise run the title task and the summary task, one
_call_llm each, whose per-attempt transport outcomes are abstracted by
`oracle task attempt` (task 0 = titles, task 1 = summaries; the third task
produces only the explanations list, which is not modelled).  Each field
starts as its marked placeholder default and is replaced only when the
response is present and its label pattern matches. -/
def get_ai_generated_content (hasClient : Bool)
    (oracle : ℕ → ℕ → Option String) (original_title : String) : GenContent :=
  match lookup_seed original_title with
  | some c => c
  | none =>
    if !hasClient then get_placeholder_content original_title
    else
      let title_response := (call_llm (oracle 0)).response
      let eng_title := match title_response with
        | none => eng_title_default
        | some r => (search_label_line "Simplified English Title: " r).getD eng_title_default
      let fr_title := match title_response with
        | none => fr_title_default
        | some r => (search_label_line "Simplified French Title: " r).getD fr_title_default
      let summary_response := (call_llm (oracle 1)).response
      let eng_summary := match summary_response with
        | none => eng_summary_default
        | some r => (search_label_all "English Summary: " r).getD eng_summary_default
      let fr_summary := match summary_response with
        | none => fr_summary_default
        | some r => (search_label_all "French Summary: " r).getD fr_summary_default
      { simplified_english_title := eng_title
        simplified_french_title := fr_title
        english_summary := eng_summary
        french_summary := fr_summary }

/-- MAX_ARTICLES_TO_PROCESS (ai_Processor_Backup.py line 27). -/
def MAX_ARTICLES_TO_PROCESS : ℕ := 30

/-- One published record of the backup stage, restricted to the modelled
fields (link, dates, metadata and explanations dropped). -/
structure OutEntry where
  original_article_title : String
  simplified_english_title : String
  simplified_french_title : String
  english_summary : String
  french_summary : String
deriving DecidableEq, Repr

/-- process_articles (ai_Processor_Backup.py lines 505-547): truncate the
curated batch to the first MAX_ARTICLES_TO_PROCESS entries, skip entries with
a missing/empty title, and emit one output record per remaining entry; the
per-article transport outcomes are abstracted by `oracle title`, keyed by the
title from which every prompt is built.  Entries are modelled by their
original titles, the only input field feeding the modelled output fields. -/
def process_articles (hasClient : Bool)
    (oracle : String → ℕ → ℕ → Option String) (titles : List String) :
    List OutEntry :=
  (titles.take MAX_ARTICLES_TO_PROCESS).filterMap (fun t =>
    if t = "" then none
    else
      let c := get_ai_generated_content hasClient (oracle t) t
      some { original_article_title := t
             simplified_english_title := c.simplified_english_title
             simplified_french_title := c.simplified_french_title
             english_summary := c.english_summary
             french_summary := c.french_summary })

end BackupProcessor

/-- C1: for every article record (missing fields treated as empty strings),
each of the three sub-scores returned by score_quality, score_relevance and
score_importance lies in [0,10] after clamping, and the total_score stored in
the ScoredArticle built by score_single_article equals exactly
quality_score + relevance_score + importance_score, hence lies in [0,30]. -/
theorem C1_scores_bounded_total_exact (a : Article) :
    (0 ≤ AutomatedCurator.score_quality a ∧ AutomatedCurator.score_quality a ≤ 10)
    ∧ (0 ≤ AutomatedCurator.score_relevance a ∧ AutomatedCurator.score_relevance a ≤ 10)
    ∧ (0 ≤ AutomatedCurator.score_importance a ∧ AutomatedCurator.score_importance a ≤ 10)
    ∧ (AutomatedCurator.score_single_article a).total_score
        = (AutomatedCurator.score_single_article a).quality_score
          + (AutomatedCurator.score_single_article a).relevance_score
          + (AutomatedCurator.score_single_article a).importance_score
    ∧ 0 ≤ (AutomatedCurator.score_single_article a).total_score
    ∧ (AutomatedCurator.score_single_article a).total_score ≤ 30 := by
  have hq1 : 0 ≤ AutomatedCurator.score_quality a := clampQ_nonneg _
  have hq2 : AutomatedCurator.score_quality a ≤ 10 := clampQ_le_ten _
  have hr1 : 0 ≤ AutomatedCurator.score_relevance a := clampQ_nonneg _
  have hr2 : AutomatedCurator.score_relevance a ≤ 10 := clampQ_le_ten _
  have hi1 : 0 ≤ AutomatedCurator.score_importance a := clampQ_nonneg _
  have hi2 : AutomatedCurator.score_importance a ≤ 10 := clampQ_le_ten _
  refine ⟨⟨hq1, hq2⟩, ⟨hr1, hr2⟩, ⟨hi1, hi2⟩, rfl, ?_, ?_⟩
  · simpa [AutomatedCurator.score_single_article] using by positivity
  · show AutomatedCurator.score_quality a + AutomatedCurator.score_relevance a
      + AutomatedCurator.score_importance a ≤ 30
    linarith

/-! ### General helper lemmas -/

theorem map_getD_range {α : Type} (l : List α) (d : α) :
    (List.range l.length).map (fun i => l.getD i d) = l := by
  induction l with
  | nil => rfl
  | cons a t ih =>
    have hcomp : ((fun i => (a :: t).getD i d) ∘ Nat.succ) = fun i => t.getD i d := by
      funext i; simp
    calc (List.range (a :: t).length).map (fun i => (a :: t).getD i d)
        = (0 :: (List.range t.length).map Nat.succ).map
            (fun i => (a :: t).getD i d) := by
          rw [List.length_cons, List.range_succ_eq_map]
      _ = a :: (List.range t.length).map (fun i => t.getD i d) := by
          simp only [List.map_cons, List.getD_cons_zero, List.map_map, hcomp]
      _ = a :: t := by rw [ih]

theorem mem_foldl_append {β γ : Type} (f : γ → List β) (gs : List γ)
    (acc : List β) (x : β) :
    x ∈ gs.foldl (fun a g => a ++ f g) acc ↔ x ∈ acc ∨ ∃ g ∈ gs, x ∈ f g := by
  induction gs generalizing acc with
  | nil => simp
  | cons g gs ih =>
    rw [List.foldl_cons, ih]
    simp [List.mem_append, or_assoc]

namespace AutomatedCurator

/-- Membership in the to_remove set is exactly non-representative membership
of some duplicate group. -/
theorem mem_to_remove_iff (articles : List Article) (i : ℕ) :
    i ∈ to_remove_list articles ↔
      ∃ g ∈ find_duplicates articles, i ∈ g ∧
        i ≠ select_best_duplicate articles (total_scores articles) g := by
  unfold to_remove_list
  rw [mem_foldl_append]
  simp [List.mem_filter]

theorem low_score_reason_length (t : ℚ) : 11 ≤ (low_score_reason t).length := by
  unfold low_score_reason
  rw [String.length_append, String.length_append, String.length_append]
  have h1 : ("low_score_" : String).length = 10 := rfl
  have h2 : ("." : String).length = 1 := rfl
  omega

theorem low_score_reason_ne_empty (t : ℚ) : low_score_reason t ≠ "" := by
  intro h
  have := congrArg String.length h
  have hlen := low_score_reason_length t
  have : ("" : String).length = 0 := rfl
  omega

theorem low_score_reason_ne_duplicate (t : ℚ) :
    low_score_reason t ≠ "duplicate" := by
  intro h
  have := congrArg String.length h
  have hlen := low_score_reason_length t
  have : ("duplicate" : String).length = 9 := rfl
  omega

/-- Every entry of the scored list (and the out-of-range default) has an
empty rejection reason. -/
theorem scored_getD_reason (articles : List Article) (i : ℕ) :
    ((scored_list articles).getD i default).rejection_reason = "" := by
  rcases h : (scored_list articles)[i]? with _ | sa
  · simp [List.getD, h]
    rfl
  · have hm : sa ∈ scored_list articles := by
      exact List.getElem?_mem h
    rcases List.mem_map.1 hm with ⟨a, _, rfl⟩
    simp [List.getD, h, score_single_article]

/-- The rejection reason written by the curated/rejected pass, as a function
of the index case. -/
theorem finalize_reason (articles : List Article) (i : ℕ) :
    (finalize_article articles i).rejection_reason =
      (if i ∈ to_remove_list articles then "duplicate"
       else if ((scored_list articles).getD i default).total_score < min_total_score
       then low_score_reason ((scored_list articles).getD i default).total_score
       else "") := by
  unfold finalize_article
  by_cases h1 : i ∈ to_remove_list articles
  · rw [if_pos h1, if_pos h1]
  · rw [if_neg h1, if_neg h1]
    by_cases h2 : ((scored_list articles).getD i default).total_score
        < min_total_score
    · rw [if_pos h2, if_pos h2]
    · rw [if_neg h2, if_neg h2]
      exact scored_getD_reason articles i

/-- A kept index produces an untouched record with an empty reason. -/
theorem finalize_keep (articles : List Article) (i : ℕ)
    (h : keep_index articles i = true) :
    finalize_article articles i = (scored_list articles).getD i default := by
  unfold keep_index at h
  rw [Bool.and_eq_true, decide_eq_true_eq, decide_eq_true_eq] at h
  unfold finalize_article
  rw [if_neg h.1, if_neg h.2]

instance : IsTotal ScoredArticle (fun x y => y.total_score ≤ x.total_score) :=
  ⟨fun a b => le_total b.total_score a.total_score⟩

instance : IsTrans ScoredArticle (fun x y => y.total_score ≤ x.total_score) :=
  ⟨fun _ _ _ hab hbc => le_trans hbc hab⟩

end AutomatedCurator

namespace AutomatedCurator

/-- Finalizing never changes the total score. -/
theorem finalize_total (articles : List Article) (i : ℕ) :
    (finalize_article articles i).total_score =
      ((scored_list articles).getD i default).total_score := by
  unfold finalize_article
  split_ifs <;> rfl

/-- Erasing the reason of a finalized record recovers the scored record. -/
theorem clear_reason_finalize (articles : List Article) (i : ℕ) :
    ({ finalize_article articles i with rejection_reason := "" } : ScoredArticle)
      = (scored_list articles).getD i default := by
  have h := scored_getD_reason articles i
  unfold finalize_article
  rcases hsa : (scored_list articles).getD i default with ⟨o, q, r, im, t, rr⟩
  rw [hsa] at h
  simp only at h
  split_ifs <;> simp [h]

end AutomatedCurator

open AutomatedCurator in
/-- C2: for every input batch, full curation partitions the scored articles:
each scored article ends up in exactly one of the curated or rejected
collections (curated and rejected are disjoint and together are a
permutation of the scored input), an article is rejected with reason
"duplicate" iff it is a non-representative member of a duplicate group,
rejected with a low_score reason iff it survives deduplication but has
total_score below the threshold, and is curated (untouched, empty reason)
otherwise; the curated collection is sorted by total_score descending. -/
theorem C2_full_curation_partition (articles : List Article) :
    ((full_curation articles).1 ++ (full_curation articles).2).Perm
      ((List.range articles.length).map (finalize_article articles))
    ∧ (((full_curation articles).1 ++ (full_curation articles).2).map
        (fun sa => { sa with rejection_reason := "" })).Perm
        (scored_list articles)
    ∧ (∀ sa ∈ (full_curation articles).1, sa.rejection_reason = "")
    ∧ (∀ sa ∈ (full_curation articles).2, sa.rejection_reason = "duplicate"
        ∨ sa.rejection_reason = low_score_reason sa.total_score)
    ∧ (∀ sa ∈ (full_curation articles).1, ∀ sb ∈ (full_curation articles).2,
        sa ≠ sb)
    ∧ (∀ i, i < articles.length →
        ((i ∈ to_remove_list articles ↔
            ∃ g ∈ find_duplicates articles, i ∈ g ∧
              i ≠ select_best_duplicate articles (total_scores articles) g)
          ∧ (finalize_article articles i).rejection_reason =
              (if i ∈ to_remove_list articles then "duplicate"
               else if ((scored_list articles).getD i default).total_score
                   < min_total_score
               then low_score_reason
                 ((scored_list articles).getD i default).total_score
               else "")))
    ∧ (full_curation articles).1.Sorted
        (fun x y => y.total_score ≤ x.total_score) := by
  have hcur : (full_curation articles).1 =
      (((List.range articles.length).filter (keep_index articles)).map
        (finalize_article articles)).insertionSort
        (fun x y => y.total_score ≤ x.total_score) := rfl
  have hrej : (full_curation articles).2 =
      ((List.range articles.length).filter
        (fun i => !(keep_index articles i))).map (finalize_article articles) := rfl
  have hperm : ((full_curation articles).1 ++ (full_curation articles).2).Perm
      ((List.range articles.length).map (finalize_article articles)) := by
    rw [hcur, hrej]
    refine ((List.perm_insertionSort _ _).append (List.Perm.refl _)).trans ?_
    rw [← List.map_append]
    exact (List.filter_append_perm _ _).map _
  have hcurmem : ∀ sa ∈ (full_curation articles).1, ∃ i,
      keep_index articles i = true ∧ sa = finalize_article articles i := by
    intro sa hsa
    rw [hcur, List.mem_insertionSort] at hsa
    rcases List.mem_map.1 hsa with ⟨i, hi, rfl⟩
    exact ⟨i, (List.mem_filter.1 hi).2, rfl⟩
  have hcur_reason : ∀ sa ∈ (full_curation articles).1,
      sa.rejection_reason = "" := by
    intro sa hsa
    rcases hcurmem sa hsa with ⟨i, hkeepi, rfl⟩
    rw [finalize_keep articles i hkeepi]
    exact scored_getD_reason articles i
  have hrej_reason : ∀ sa ∈ (full_curation articles).2,
      sa.rejection_reason = "duplicate"
        ∨ sa.rejection_reason = low_score_reason sa.total_score := by
    intro sa hsa
    rw [hrej] at hsa
    rcases List.mem_map.1 hsa with ⟨i, hi, rfl⟩
    have hnk : keep_index articles i = false := by
      have h2 := (List.mem_filter.1 hi).2
      cases h : keep_index articles i
      · rfl
      · rw [h] at h2
        exact absurd h2 (by decide)
    unfold keep_index at hnk
    rw [Bool.and_eq_false_iff] at hnk
    rcases hnk with hdup | hlow
    · have hmem : i ∈ to_remove_list articles :=
        not_not.1 (of_decide_eq_false hdup)
      left
      rw [finalize_reason articles i, if_pos hmem]
    · have hlt : ((scored_list articles).getD i default).total_score
          < min_total_score := not_not.1 (of_decide_eq_false hlow)
      by_cases hdp : i ∈ to_remove_list articles
      · left
        rw [finalize_reason articles i, if_pos hdp]
      · right
        rw [finalize_reason articles i, if_neg hdp, if_pos hlt,
          finalize_total articles i]
  refine ⟨hperm, ?_, hcur_reason, hrej_reason, ?_, ?_, ?_⟩
  · have hpt : ∀ i ∈ List.range articles.length,
        (fun sa => ({ sa with rejection_reason := "" } : ScoredArticle))
            (finalize_article articles i)
          = (scored_list articles).getD i default := by
      intro i _
      exact clear_reason_finalize articles i
    have hlen : articles.length = (scored_list articles).length := by
      unfold scored_list
      rw [List.length_map]
    refine (hperm.map _).trans ?_
    have e1 : ((List.range articles.length).map (finalize_article articles)).map
        (fun sa => ({ sa with rejection_reason := "" } : ScoredArticle))
        = (List.range articles.length).map
          (fun i => (scored_list articles).getD i default) := by
      rw [List.map_map]
      exact List.map_congr_left hpt
    have e2 : (List.range articles.length).map
        (fun i => (scored_list articles).getD i default)
        = scored_list articles := by
      rw [hlen]
      exact map_getD_range _ _
    rw [e1, e2]
  · intro sa hsa sb hsb heq
    have h1 := hcur_reason sa hsa
    have h2 := hrej_reason sb hsb
    rw [heq] at h1
    rcases h2 with h2 | h2
    · rw [h2] at h1
      exact absurd h1 (by decide)
    · rw [h2] at h1
      exact low_score_reason_ne_empty _ h1
  · intro i _
    exact ⟨mem_to_remove_iff articles i, finalize_reason articles i⟩
  · rw [hcur]
    exact List.sorted_insertionSort _ _

namespace AIEngine

/-- When the ledger is within limits the loop attempts every article of its
input, one external call each, and keeps the successful results in input
order; the ledger never changes during the loop (the increments in
call_openrouter_api are dead code), so the per-article re-check always
passes. -/
theorem batch_loop_eq {π : Type} (proc : Article → Option π) (st : CostState)
    (h : check_cost_limits st = true) (l : List Article) :
    batch_loop proc st l = (l.filterMap proc, l.length) := by
  induction l with
  | nil => rfl
  | cons a rest ih =>
    unfold batch_loop
    rw [h]
    simp only [Bool.not_true, Bool.false_eq_true, if_false, ih]
    cases hp : proc a <;> simp [List.filterMap_cons, hp]

/-- When the ledger is over either ceiling the loop stops before the first
article. -/
theorem batch_loop_stop {π : Type} (proc : Article → Option π) (st : CostState)
    (h : check_cost_limits st = false) (l : List Article) :
    batch_loop proc st l = ([], 0) := by
  cases l <;> simp [batch_loop, h]

end AIEngine

open AIEngine in
/-- C3: in a single batch run, the cost ledger is checked against the daily
spend ceiling and the daily call-count ceiling before each article; if either
ceiling is exceeded the run stops immediately and returns the partially
produced list without raising an error (the model is total); and the number
of external calls attempted in one batch run never exceeds the configured
daily call ceiling (at most max_ai_articles_per_day = 100 articles are
attempted, below the ceiling of 120). -/
theorem C3_budget_checks_and_call_ceiling {π : Type}
    (proc : Article → Option π) (st : CostState) (articles : List Article) :
    (check_cost_limits st = false →
      batch_process_articles proc st articles = ([], 0)
      ∧ ∀ l, batch_loop proc st l = ([], 0))
    ∧ (batch_process_articles proc st articles).2 ≤ max_ai_calls_per_day := by
  constructor
  · intro h
    refine ⟨?_, fun l => batch_loop_stop proc st h l⟩
    unfold batch_process_articles
    rw [h]
    rfl
  · cases h : check_cost_limits st
    · unfold batch_process_articles
      rw [h]
      exact Nat.zero_le _
    · unfold batch_process_articles
      rw [h]
      simp only [Bool.not_true, Bool.false_eq_true, if_false,
        batch_loop_eq proc st h]
      calc (articles.take max_ai_articles_per_day).length
          ≤ max_ai_articles_per_day := by
            rw [List.length_take]
            exact min_le_left _ _
        _ ≤ max_ai_calls_per_day := by norm_num [max_ai_articles_per_day,
            max_ai_calls_per_day]

/-- Witness for C3: with a fresh ledger and a single article whose enhancement
succeeds, one call is attempted, and an over-budget ledger yields the empty
result. -/
theorem C3_budget_checks_and_call_ceiling_witness :
    (AIEngine.batch_process_articles (fun _ => some 0)
      { daily_cost := 25, daily_api_calls := 0 } [{ }] = ([], 0))
    ∧ (AIEngine.batch_process_articles (fun _ => some 0)
        { daily_cost := 0, daily_api_calls := 0 } [{ }]).2 ≤
        AIEngine.max_ai_calls_per_day := by
  constructor
  · exact ((C3_budget_checks_and_call_ceiling (fun _ => some (0 : ℕ))
      { daily_cost := 25, daily_api_calls := 0 } [{ }]).1
        (by with_unfolding_all decide)).1
  · exact (C3_budget_checks_and_call_ceiling (fun _ => some (0 : ℕ))
      { daily_cost := 0, daily_api_calls := 0 } [{ }]).2

open AIEngine in
/-- C10: in one batch run, the enhancement scheduler only ever attempts the
first max_ai_articles_per_day articles of its input, in input order; articles
beyond that bound are never processed regardless of remaining budget, and the
returned enhanced list is exactly the successes of that prefix in input order
(a filterMap of the prefix, so relative input order is preserved). -/
theorem C10_prefix_bound_and_order {π : Type} (proc : Article → Option π)
    (st : CostState) (articles : List Article) :
    (check_cost_limits st = true →
      batch_process_articles proc st articles
        = ((articles.take max_ai_articles_per_day).filterMap proc,
            (articles.take max_ai_articles_per_day).length))
    ∧ (check_cost_limits st = false →
      batch_process_articles proc st articles = ([], 0)) := by
  constructor
  · intro h
    unfold batch_process_articles
    rw [h]
    simp only [Bool.not_true, Bool.false_eq_true, if_false]
    exact batch_loop_eq proc st h _
  · intro h
    unfold batch_process_articles
    rw [h]
    rfl

/-- Witness for C10: a two-article batch within budget keeps the successes of
the prefix in order. -/
theorem C10_prefix_bound_and_order_witness :
    AIEngine.batch_process_articles
      (fun a => if a.title = "x" then some a.title else none)
      { daily_cost := 0, daily_api_calls := 0 }
      [{ title := "x" }, { title := "y" }] = (["x"], 2) := by
  have h := (C10_prefix_bound_and_order
    (fun a => if a.title = "x" then some a.title else none)
    { daily_cost := 0, daily_api_calls := 0 }
    [{ title := "x" }, { title := "y" }]).1 (by with_unfolding_all decide)
  rw [h]
  with_unfolding_all decide

namespace BackupProcessor

/-- The retry loop makes at most `rem` further attempts. -/
theorem call_llm_go_attempts (responses : ℕ → Option String) :
    ∀ (rem att slept : ℕ),
      (call_llm_go responses rem att slept).attempts ≤ att + rem := by
  intro rem
  induction rem with
  | zero => intro att slept; exact Nat.le_refl _
  | succ r ih =>
    intro att slept
    unfold call_llm_go
    cases responses att
    · by_cases hr : r = 0
      · subst hr
        simp
      · simp only [if_neg hr]
        exact le_trans (ih (att + 1) (slept + retry_delay)) (by omega)
    · simp

/-- When every remaining attempt fails, the loop exhausts all of them, sleeps
the fixed delay between consecutive attempts, and returns None. -/
theorem call_llm_go_exhaust (responses : ℕ → Option String) :
    ∀ (rem att slept : ℕ), 1 ≤ rem →
      (∀ k, k < att + rem → responses k = none) →
      call_llm_go responses rem att slept
        = ⟨none, att + rem, slept + (rem - 1) * retry_delay⟩ := by
  intro rem
  induction rem with
  | zero => omega
  | succ r ih =>
    intro att slept _ hfail
    unfold call_llm_go
    rw [hfail att (by omega)]
    by_cases hr : r = 0
    · subst hr
      simp
    · simp only [if_neg hr]
      rw [ih (att + 1) (slept + retry_delay) (by omega)
        (fun k hk => hfail k (by omega))]
      have h1 : att + 1 + r = att + (r + 1) := by omega
      have h2 : slept + retry_delay + (r - 1) * retry_delay
          = slept + (r + 1 - 1) * retry_delay := by
        have : r - 1 + 1 = r := by omega
        calc slept + retry_delay + (r - 1) * retry_delay
            = slept + ((r - 1) + 1) * retry_delay := by ring
          _ = slept + r * retry_delay := by rw [this]
      rw [h1, h2]

end BackupProcessor

open BackupProcessor in
/-- C7: when an external generation call fails at the transport level, the
call is retried up to the fixed maximum attempt count (3) with the fixed
inter-attempt delay (5s); after exhausting retries the result is None, the
failed article is thereby skipped (dropped from the enhanced batch), and the
batch continues with the next article — no single failure ever changes
how many articles the run attempts. -/
theorem C7_retry_then_skip_and_continue (responses : ℕ → Option String) :
    (call_llm responses).attempts ≤ max_retries
    ∧ ((∀ k, k < max_retries → responses k = none) →
        call_llm responses
          = ⟨none, max_retries, (max_retries - 1) * retry_delay⟩)
    ∧ (∀ (π : Type) (proc₁ proc₂ : Article → Option π)
        (st : AIEngine.CostState) (articles : List Article),
        (AIEngine.batch_process_articles proc₁ st articles).2
          = (AIEngine.batch_process_articles proc₂ st articles).2) := by
  refine ⟨?_, ?_, ?_⟩
  · exact call_llm_go_attempts responses max_retries 0 0
  · intro h
    exact call_llm_go_exhaust responses max_retries 0 0 (by norm_num [max_retries])
      (fun k hk => h k (by omega))
  · intro π proc₁ proc₂ st articles
    cases h : AIEngine.check_cost_limits st
    · unfold AIEngine.batch_process_articles
      rw [h]
      simp
    · unfold AIEngine.batch_process_articles
      rw [h]
      simp only [Bool.not_true, Bool.false_eq_true, if_false,
        AIEngine.batch_loop_eq _ st h]

/-- Witness for C7: with every transport attempt failing, exactly three
attempts are made with ten seconds of total inter-attempt sleep, and a batch
where the only article fails attempts as many calls as one where it
succeeds. -/
theorem C7_retry_then_skip_and_continue_witness :
    BackupProcessor.call_llm (fun _ => none)
      = ⟨none, 3, 10⟩
    ∧ (AIEngine.batch_process_articles (fun _ => (none : Option ℕ))
        { daily_cost := 0, daily_api_calls := 0 } [{ }]).2
      = (AIEngine.batch_process_articles (fun _ => some 0)
        { daily_cost := 0, daily_api_calls := 0 } [{ }]).2 := by
  constructor
  · have h := (C7_retry_then_skip_and_continue (fun _ => none)).2.1
      (fun k _ => rfl)
    rw [h]
    rfl
  · exact (C7_retry_then_skip_and_continue (fun _ => none)).2.2 ℕ
      (fun _ => none) (fun _ => some 0)
      { daily_cost := 0, daily_api_calls := 0 } [{ }]

/-- Witness for C2 at a concrete one-article batch: the single scored article
(an empty record, total score 11 < 18) lands in the rejected list with one of
the two legal reasons. -/
theorem C2_full_curation_partition_witness :
    (AutomatedCurator.finalize_article [{ }] 0).rejection_reason = "duplicate"
    ∨ (AutomatedCurator.finalize_article [{ }] 0).rejection_reason =
        AutomatedCurator.low_score_reason
          (AutomatedCurator.finalize_article [{ }] 0).total_score :=
  (C2_full_curation_partition [{ }]).2.2.2.1 _ (by with_unfolding_all decide)

/-- First article of the C4 counterexample. -/
def c4_first : Article := { title := "aaaa", link := "https://example.com/x" }

/-- Second article of the C4 counterexample: same canonical link, fully
dissimilar title. -/
def c4_second : Article := { title := "zzzz", link := "https://example.com/x" }

/-- C4 counterexample: the automated find_duplicates compares
titles only; on two articles with identical non-empty canonical links and
zero title similarity it returns no duplicate group at all, so the pair is
not placed in the same group, refuting the claim for this implementation. -/
theorem C4_counterexample_links_ignored :
    c4_first.link ≠ "" ∧ c4_first.link = c4_second.link ∧
    AutomatedCurator.calculate_similarity c4_first.title c4_second.title = 0 ∧
    AutomatedCurator.find_duplicates [c4_first, c4_second] = [] := by
  refine ⟨by decide, rfl, ?_, ?_⟩
  · with_unfolding_all decide
  · with_unfolding_all decide

open FrenchNewsCurator in
/-- C4 amended: only the manual find_duplicates implements the
exact-link shortcut.  There, identical non-empty canonical links make the
pairwise duplicate test true regardless of text similarity, and a
two-article batch with identical non-empty links always forms the single
group [0, 1] (in longer batches an earlier anchor can still absorb one of
the two, since grouping is anchor-based); the automated find_duplicates
ignores links entirely (see the counterexample). -/
theorem C4_amended_exact_link_shortcut (a b : Article) (h1 : a.link ≠ "")
    (h2 : a.link = b.link) :
    FrenchNewsCurator.is_duplicate_pair a b = true ∧
    FrenchNewsCurator.find_duplicates [a, b] = [[0, 1]] := by
  have hb : b.link ≠ "" := h2 ▸ h1
  have e1 : (a.link != "") = true := by simpa using h1
  have e2 : (b.link != "") = true := by simpa using hb
  have e3 : (a.link == b.link) = true := by simpa using h2
  have hd : FrenchNewsCurator.is_duplicate_pair a b = true := by
    unfold FrenchNewsCurator.is_duplicate_pair
    rw [e1, e2, e3]
    rfl
  refine ⟨hd, ?_⟩
  unfold FrenchNewsCurator.find_duplicates
  simp [hd, List.range_succ]

/-- Witness for the C4 amended theorem at the counterexample pair. -/
theorem C4_amended_exact_link_shortcut_witness :
    FrenchNewsCurator.is_duplicate_pair c4_first c4_second = true ∧
    FrenchNewsCurator.find_duplicates [c4_first, c4_second] = [[0, 1]] :=
  C4_amended_exact_link_shortcut c4_first c4_second (by decide) rfl

namespace AutomatedCurator

/-- Full invariant of the select_best_duplicate fold: the result is the head
or a later member; it carries the maximal score seen; among members with
that score it carries the maximal content length; and it is the first-seen
member tying it on both score and content length. -/
theorem select_fold_spec (articles : List Article) (scores : List ℚ) :
    ∀ (rest : List ℕ) (b : ℕ),
      (rest.foldl (select_step articles scores) b = b
        ∨ rest.foldl (select_step articles scores) b ∈ rest)
      ∧ score_at scores b
          ≤ score_at scores (rest.foldl (select_step articles scores) b)
      ∧ (∀ i ∈ rest, score_at scores i
          ≤ score_at scores (rest.foldl (select_step articles scores) b))
      ∧ (score_at scores b
            = score_at scores (rest.foldl (select_step articles scores) b) →
          content_len_at articles b
            ≤ content_len_at articles (rest.foldl (select_step articles scores) b))
      ∧ (∀ i ∈ rest, score_at scores i
            = score_at scores (rest.foldl (select_step articles scores) b) →
          content_len_at articles i
            ≤ content_len_at articles (rest.foldl (select_step articles scores) b))
      ∧ (b :: rest).find?
          (tie_with articles scores (rest.foldl (select_step articles scores) b))
          = some (rest.foldl (select_step articles scores) b) := by
  intro rest
  induction rest with
  | nil =>
    intro b
    refine ⟨Or.inl rfl, le_refl _, by simp, fun _ => le_refl _, by simp, ?_⟩
    apply List.find?_cons_of_pos
    unfold tie_with
    simp
  | cons x xs ih =>
    intro b
    simp only [List.foldl_cons]
    by_cases h1 : score_at scores x > score_at scores b
    · -- strictly better score: the new running best is x
      have hb' : select_step articles scores b x = x := by
        unfold select_step
        rw [if_pos h1]
      rw [hb']
      obtain ⟨ih1, ih2, ih3, ih4, ih5, ih6⟩ := ih x
      have hblt : score_at scores b
          < score_at scores (xs.foldl (select_step articles scores) x) :=
        lt_of_lt_of_le h1 ih2
      refine ⟨?_, le_of_lt hblt, ?_, ?_, ?_, ?_⟩
      · rcases ih1 with h | h
        · exact Or.inr (by rw [h]; exact List.mem_cons_self x xs)
        · exact Or.inr (List.mem_cons_of_mem x h)
      · intro i hi
        rcases List.mem_cons.1 hi with rfl | hi
        · exact ih2
        · exact ih3 i hi
      · intro heq
        exact absurd heq (ne_of_lt hblt)
      · intro i hi htie
        rcases List.mem_cons.1 hi with rfl | hi
        · exact ih4 htie
        · exact ih5 i hi htie
      · have hpb : tie_with articles scores
            (xs.foldl (select_step articles scores) x) b = false := by
          unfold tie_with
          rw [decide_eq_false (ne_of_lt hblt)]
          rfl
        rw [List.find?_cons_of_neg _ (by rw [hpb]; exact Bool.false_ne_true)]
        exact ih6
    · by_cases h2 : score_at scores x = score_at scores b ∧
          content_len_at articles x > content_len_at articles b
      · -- equal score, strictly longer content: new running best is x
        have hb' : select_step articles scores b x = x := by
          unfold select_step
          rw [if_neg h1, if_pos h2]
        rw [hb']
        obtain ⟨ih1, ih2, ih3, ih4, ih5, ih6⟩ := ih x
        have hble : score_at scores b
            ≤ score_at scores (xs.foldl (select_step articles scores) x) :=
          h2.1 ▸ ih2
        refine ⟨?_, hble, ?_, ?_, ?_, ?_⟩
        · rcases ih1 with h | h
          · exact Or.inr (by rw [h]; exact List.mem_cons_self x xs)
          · exact Or.inr (List.mem_cons_of_mem x h)
        · intro i hi
          rcases List.mem_cons.1 hi with rfl | hi
          · exact ih2
          · exact ih3 i hi
        · intro heq
          have hxr : score_at scores x
              = score_at scores (xs.foldl (select_step articles scores) x) :=
            h2.1.trans heq
          exact le_trans (le_of_lt h2.2) (ih4 hxr)
        · intro i hi htie
          rcases List.mem_cons.1 hi with rfl | hi
          · exact ih4 htie
          · exact ih5 i hi htie
        · have hpb : tie_with articles scores
              (xs.foldl (select_step articles scores) x) b = false := by
            unfold tie_with
            by_cases hsb : score_at scores b
                = score_at scores (xs.foldl (select_step articles scores) x)
            · have hxr : score_at scores x
                  = score_at scores (xs.foldl (select_step articles scores) x) :=
                h2.1.trans hsb
              have hlen : content_len_at articles b
                  < content_len_at articles
                      (xs.foldl (select_step articles scores) x) :=
                lt_of_lt_of_le h2.2 (ih4 hxr)
              rw [decide_eq_false (ne_of_lt hlen)]
              simp
            · rw [decide_eq_false hsb]
              rfl
          rw [List.find?_cons_of_neg _ (by rw [hpb]; exact Bool.false_ne_true)]
          exact ih6
      · -- the earlier best is kept
        have hb' : select_step articles scores b x = b := by
          unfold select_step
          rw [if_neg h1, if_neg h2]
        rw [hb']
        obtain ⟨ih1, ih2, ih3, ih4, ih5, ih6⟩ := ih b
        have hxb : score_at scores x ≤ score_at scores b := not_lt.1 h1
        refine ⟨?_, ih2, ?_, ih4, ?_, ?_⟩
        · rcases ih1 with h | h
          · exact Or.inl h
          · exact Or.inr (List.mem_cons_of_mem x h)
        · intro i hi
          rcases List.mem_cons.1 hi with rfl | hi
          · exact le_trans hxb ih2
          · exact ih3 i hi
        · intro i hi htie
          rcases List.mem_cons.1 hi with rfl | hi
          · -- a tying head implies the scores squeeze to equality
            have hsb : score_at scores b
                = score_at scores (xs.foldl (select_step articles scores) b) :=
              le_antisymm ih2 (htie ▸ hxb)
            have hxb' : score_at scores i = score_at scores b :=
              htie.trans hsb.symm
            have hxlen : content_len_at articles i ≤ content_len_at articles b := by
              by_contra hcon
              exact h2 ⟨hxb', not_le.1 hcon⟩
            exact le_trans hxlen (ih4 hsb)
          · exact ih5 i hi htie
        · cases hpb : tie_with articles scores
              (xs.foldl (select_step articles scores) b) b
          · -- the head does not tie: neither does x, and the tail finds r
            have htail := ih6
            rw [List.find?_cons_of_neg _ (by rw [hpb]; exact Bool.false_ne_true)]
              at htail
            have hpx : tie_with articles scores
                (xs.foldl (select_step articles scores) b) x = false := by
              by_contra hcon
              have hx := eq_true_of_ne_false hcon
              unfold tie_with at hx
              rw [Bool.and_eq_true, decide_eq_true_eq, decide_eq_true_eq] at hx
              have hsb : score_at scores b
                  = score_at scores (xs.foldl (select_step articles scores) b) :=
                le_antisymm ih2 (hx.1 ▸ hxb)
              have hxb' : score_at scores x = score_at scores b :=
                hx.1.trans hsb.symm
              have hxlen : content_len_at articles x
                  ≤ content_len_at articles b := by
                by_contra hcon2
                exact h2 ⟨hxb', not_le.1 hcon2⟩
              have hblen : content_len_at articles b
                  = content_len_at articles
                      (xs.foldl (select_step articles scores) b) :=
                le_antisymm (ih4 hsb) (hx.2 ▸ hxlen)
              have : tie_with articles scores
                  (xs.foldl (select_step articles scores) b) b = true := by
                unfold tie_with
                rw [decide_eq_true hsb, decide_eq_true hblen]
                rfl
              rw [hpb] at this
              exact Bool.false_ne_true this
            rw [List.find?_cons_of_neg _ (by rw [hpb]; exact Bool.false_ne_true),
              List.find?_cons_of_neg _ (by rw [hpx]; exact Bool.false_ne_true)]
            exact htail
          · -- the head ties: it must itself be the result
            have htail := ih6
            rw [List.find?_cons_of_pos _ hpb] at htail
            have hbr : b = xs.foldl (select_step articles scores) b :=
              Option.some.inj htail
            rw [List.find?_cons_of_pos _ hpb]
            exact hbr ▸ htail

end AutomatedCurator

open AutomatedCurator in
/-- C5: for every non-empty duplicate group and score list,
select_best_duplicate returns a member of the group whose total_score is
maximal in the group (the score of the kept article is at least the score
of every member); among members tied on that score it returns one of maximal
content length; and among members tied on both score and content length it
returns the first-seen one (the first such member in group order). -/
theorem C5_select_best_duplicate_spec (articles : List Article)
    (scores : List ℚ) (indices : List ℕ) (h : indices ≠ []) :
    select_best_duplicate articles scores indices ∈ indices
    ∧ (∀ i ∈ indices, score_at scores i
        ≤ score_at scores (select_best_duplicate articles scores indices))
    ∧ (∀ i ∈ indices, score_at scores i
          = score_at scores (select_best_duplicate articles scores indices) →
        content_len_at articles i
          ≤ content_len_at articles (select_best_duplicate articles scores indices))
    ∧ indices.find?
        (tie_with articles scores (select_best_duplicate articles scores indices))
        = some (select_best_duplicate articles scores indices) := by
  match indices, h with
  | i0 :: rest, _ =>
    obtain ⟨s1, s2, s3, s4, s5, s6⟩ := select_fold_spec articles scores rest i0
    have hsel : select_best_duplicate articles scores (i0 :: rest)
        = rest.foldl (select_step articles scores) i0 := rfl
    rw [hsel]
    refine ⟨?_, ?_, ?_, s6⟩
    · rcases s1 with h' | h'
      · rw [h']
        exact List.mem_cons_self _ _
      · exact List.mem_cons_of_mem _ h'
    · intro i hi
      rcases List.mem_cons.1 hi with rfl | hi
      · exact s2
      · exact s3 i hi
    · intro i hi htie
      rcases List.mem_cons.1 hi with rfl | hi
      · exact s4 htie
      · exact s5 i hi htie

/-- Articles for the C5 witness: equal scores, tie broken by content
length. -/
def c5_articles : List Article :=
  [{ content := "a" }, { content := "abc" }, { content := "abc" }]

/-- Witness for C5 on a concrete three-member group. -/
theorem C5_select_best_duplicate_spec_witness :
    AutomatedCurator.select_best_duplicate c5_articles [5, 5, 5] [0, 1, 2]
      ∈ [0, 1, 2]
    ∧ AutomatedCurator.select_best_duplicate c5_articles [5, 5, 5] [0, 1, 2]
      = 1 := by
  constructor
  · exact (C5_select_best_duplicate_spec c5_articles [5, 5, 5] [0, 1, 2]
      (by decide)).1
  · with_unfolding_all decide

/-- Containment in a string is preserved by appending on the right. -/
theorem charsStart_append (n : List Char) :
    ∀ (h h' : List Char), charsStart n h = true →
      charsStart n (h ++ h') = true := by
  induction n with
  | nil => intro h h' _; rfl
  | cons c ns ih =>
    intro h h' hs
    cases h with
    | nil => exact absurd hs (by simp [charsStart])
    | cons d ds =>
      unfold charsStart at hs ⊢
      rw [Bool.and_eq_true] at hs
      rw [List.cons_append, Bool.and_eq_true]
      exact ⟨hs.1, ih ds h' hs.2⟩

theorem occursIn_nil_true : ∀ (l : List Char), occursIn [] l = true
  | [] => rfl
  | _ :: _ => rfl

theorem occursIn_append (n : List Char) :
    ∀ (h h' : List Char), occursIn n h = true →
      occursIn n (h ++ h') = true := by
  intro h
  induction h with
  | nil =>
    intro h' hs
    cases n with
    | nil => exact occursIn_nil_true _
    | cons c cs => exact absurd hs (by simp [occursIn, charsStart])
  | cons c cs ih =>
    intro h' hs
    unfold occursIn at hs ⊢
    rw [Bool.or_eq_true] at hs
    rw [List.cons_append, Bool.or_eq_true]
    rcases hs with hs | hs
    · exact Or.inl (by
        have := charsStart_append n (c :: cs) h' hs
        rwa [List.cons_append] at this)
    · exact Or.inr (ih h' hs)

/-- Python `k in t` implies `k in t + s`. -/
theorem strContains_append_left (t s k : String)
    (h : strContains t k = true) : strContains (t ++ s) k = true := by
  unfold strContains at h ⊢
  have hd : (t ++ s).toList = t.toList ++ s.toList := String.data_append t s
  rw [hd]
  exact occursIn_append _ _ _ h

/-- The C9 counterexample article: policy keyword and urgency keyword in the
title, plus the local indicator "village" with no major city. -/
def c9_article : Article := { title := "urgent gouvernement village" }

/-- C9 counterexample: the title contains the policy keyword "gouvernement"
and the urgency keyword "urgent", so the claim asserts importance at least
base+4 = 8; but the local/regional penalty fires ("village" occurs and no
major city co-occurs) and score_importance returns 7. -/
theorem C9_counterexample_locality_penalty :
    "gouvernement" ∈ AutomatedCurator.policy_keywords
    ∧ strContains (pyLower c9_article.title) "gouvernement" = true
    ∧ "urgent" ∈ AutomatedCurator.high_importance_indicators
    ∧ strContains (pyLower c9_article.title) "urgent" = true
    ∧ AutomatedCurator.score_importance c9_article = 7 := by
  refine ⟨by decide, by decide, by decide, by decide, ?_⟩
  with_unfolding_all decide

open AutomatedCurator in
/-- C9 amended: an article whose title contains both a policy keyword and an
urgency keyword scores importance at least base+4 = 8 (clamped to 10 if the
remaining bonuses would push it past 10) provided the local/regional penalty
does not fire, i.e. no local indicator occurs in the scanned text or a major
city co-occurs; with the penalty the guaranteed bound drops to base+3 (see
the counterexample). -/
theorem C9_amended_importance_bonus (a : Article)
    (hp : ∃ k ∈ policy_keywords, strContains (pyLower a.title) k = true)
    (hu : ∃ k ∈ high_importance_indicators,
        strContains (pyLower a.title) k = true)
    (hl : (local_indicators.any
          (fun k => strContains (importance_full_text a) k) &&
        !(major_cities.any
          (fun c => strContains (importance_full_text a) c))) = false) :
    8 ≤ score_importance a ∧ score_importance a ≤ 10 := by
  have hmono : ∀ k, strContains (pyLower a.title) k = true →
      strContains (importance_full_text a) k = true := by
    intro k hk
    unfold importance_full_text
    exact strContains_append_left _ _ _ (strContains_append_left _ _ _
      (strContains_append_left _ _ _ (strContains_append_left _ _ _ hk)))
  have h1 : (high_importance_indicators.any
      (fun k => strContains (importance_full_text a) k)) = true := by
    rcases hu with ⟨k, hk, hc⟩
    exact List.any_eq_true.2 ⟨k, hk, hmono k hc⟩
  have h2 : (policy_keywords.any
      (fun k => strContains (importance_full_text a) k)) = true := by
    rcases hp with ⟨k, hk, hc⟩
    exact List.any_eq_true.2 ⟨k, hk, hmono k hc⟩
  constructor
  · unfold score_importance
    simp only [h1, h2, hl, if_true, Bool.false_eq_true, if_false]
    apply clampQ_lower _ 8 (by norm_num)
    split_ifs <;> norm_num
  · exact clampQ_le_ten _

/-- Witness article for the amended C9. -/
def c9_witness_article : Article := { title := "urgent gouvernement" }

/-- Witness for the amended C9: both keywords present, no local indicator,
importance lands in [8, 10]. -/
theorem C9_amended_importance_bonus_witness :
    8 ≤ AutomatedCurator.score_importance c9_witness_article
    ∧ AutomatedCurator.score_importance c9_witness_article ≤ 10 :=
  C9_amended_importance_bonus c9_witness_article
    ⟨"gouvernement", by decide, by decide⟩
    ⟨"urgent", by decide, by decide⟩
    (by decide)

theorem getD_map_lt {α β : Type} (f : α → β) :
    ∀ (l : List α) (i : ℕ), i < l.length →
      ∀ (d : α) (d' : β), (l.map f).getD i d' = f (l.getD i d) := by
  intro l
  induction l with
  | nil => intro i h; exact absurd h (by simp)
  | cons a t ih =>
    intro i h d d'
    cases i with
    | zero => rfl
    | succ j =>
      simp only [List.map_cons, List.getD_cons_succ]
      exact ih j (by simpa using h) d d'

theorem getD_mem_of_lt {α : Type} :
    ∀ (l : List α) (i : ℕ), i < l.length → ∀ (d : α), l.getD i d ∈ l := by
  intro l
  induction l with
  | nil => intro i h; exact absurd h (by simp)
  | cons a t ih =>
    intro i h d
    cases i with
    | zero => exact List.mem_cons_self _ _
    | succ j =>
      simp only [List.getD_cons_succ]
      exact List.mem_cons_of_mem _ (ih j (by simpa using h) d)

namespace AutomatedCurator

/-- In range, the scored list is the pointwise scoring of the input. -/
theorem scored_getD_lt (articles : List Article) (i : ℕ)
    (h : i < articles.length) :
    (scored_list articles).getD i default
      = score_single_article (articles.getD i default) :=
  getD_map_lt score_single_article articles i h default default

/-- Every record of the curated output rescored from its original article
gives back the same record, and its total meets the threshold. -/
theorem curated_member_spec (articles : List Article) :
    ∀ sa ∈ (full_curation articles).1,
      score_single_article sa.original_data = sa
      ∧ min_total_score ≤ sa.total_score := by
  intro sa hsa
  have hcur : (full_curation articles).1 =
      (((List.range articles.length).filter (keep_index articles)).map
        (finalize_article articles)).insertionSort
        (fun x y => y.total_score ≤ x.total_score) := rfl
  rw [hcur, List.mem_insertionSort] at hsa
  rcases List.mem_map.1 hsa with ⟨i, hi, rfl⟩
  have hkeepi := (List.mem_filter.1 hi).2
  have hlt : i < articles.length := List.mem_range.1 (List.mem_filter.1 hi).1
  have hfx : finalize_article articles i
      = score_single_article (articles.getD i default) := by
    rw [finalize_keep articles i hkeepi]
    exact scored_getD_lt articles i hlt
  have horig : (finalize_article articles i).original_data
      = articles.getD i default := by
    rw [hfx]
    rfl
  constructor
  · rw [horig, ← hfx]
  · unfold keep_index at hkeepi
    rw [Bool.and_eq_true, decide_eq_true_eq, decide_eq_true_eq] at hkeepi
    rw [finalize_total articles i]
    exact not_lt.1 hkeepi.2

end AutomatedCurator

open AutomatedCurator in
/-- C6 amended: threshold filtering is idempotent but deduplication is not.
Re-running full curation on the already-curated output rejects no article for
a low score — every article the second run rejects is rejected as a
"duplicate" — but such duplicate rejections can occur (see the
counterexample), because anchor-based grouping is not transitively closed:
two curated survivors can still exceed the title-similarity threshold. -/
theorem C6_amended_rerun_rejects_only_duplicates (articles : List Article) :
    ∀ sa ∈ (full_curation
        ((full_curation articles).1.map (fun c => c.original_data))).2,
      sa.rejection_reason = "duplicate" := by
  intro sa hsa
  set input2 := (full_curation articles).1.map (fun c => c.original_data)
    with hinput2
  have hrej : (full_curation input2).2 =
      ((List.range input2.length).filter
        (fun i => !(keep_index input2 i))).map (finalize_article input2) := rfl
  rw [hrej] at hsa
  rcases List.mem_map.1 hsa with ⟨i, hi, rfl⟩
  have hlt : i < input2.length := List.mem_range.1 (List.mem_filter.1 hi).1
  have hnk : keep_index input2 i = false := by
    have h2 := (List.mem_filter.1 hi).2
    cases h : keep_index input2 i
    · rfl
    · rw [h] at h2
      exact absurd h2 (by decide)
  have hlen1 : i < (full_curation articles).1.length := by
    have hle : input2.length = (full_curation articles).1.length := by
      rw [hinput2, List.length_map]
    omega
  have hgetD : input2.getD i default =
      ((full_curation articles).1.getD i default).original_data := by
    rw [hinput2]
    exact getD_map_lt _ _ i hlen1 default default
  have hmem1 : (full_curation articles).1.getD i default
      ∈ (full_curation articles).1 := getD_mem_of_lt _ i hlen1 default
  obtain ⟨hfix, hthr⟩ := curated_member_spec articles _ hmem1
  have hsc : (scored_list input2).getD i default
      = (full_curation articles).1.getD i default := by
    rw [scored_getD_lt input2 i hlt, hgetD, hfix]
  unfold keep_index at hnk
  rw [Bool.and_eq_false_iff] at hnk
  rcases hnk with hdup | hlow
  · have hmem : i ∈ to_remove_list input2 :=
      not_not.1 (of_decide_eq_false hdup)
    rw [finalize_reason input2 i, if_pos hmem]
  · exfalso
    have hlt2 : ((scored_list input2).getD i default).total_score
        < min_total_score := not_not.1 (of_decide_eq_false hlow)
    rw [hsc] at hlt2
    exact absurd hthr (not_le.2 hlt2)

/-- Shared summary of the C6 counterexample articles; it carries enough
curated keywords (urgency, policy, economic, social, relevance) that all
three articles clear the 18-point threshold (each totals 22.2). -/
def c6_shared_summary : String :=
  "décision du gouvernement emploi santé"

/-- C6 counterexample article 1: title "qqqqaaaaaaa". -/
def c6_first : Article :=
  { title := "qqqqaaaaaaa", summary := c6_shared_summary, content := "ww",
    source_name := "le monde", category := "politique", author := "jean" }

/-- C6 counterexample article 2: title "aaaaaaa", longer content than the
first so it wins the duplicate tie against it. -/
def c6_second : Article :=
  { title := "aaaaaaa", summary := c6_shared_summary, content := "wwww",
    source_name := "le monde", category := "politique", author := "jean" }

/-- C6 counterexample article 3: title "aaaaaaazzzz"; similar to the second
title (ratio 7/9 > 0.7) but not to the first (ratio 7/11 < 0.7). -/
def c6_third : Article :=
  { title := "aaaaaaazzzz", summary := c6_shared_summary, content := "wwww",
    source_name := "le monde", category := "politique", author := "jean" }

set_option maxRecDepth 100000 in
set_option maxHeartbeats 4000000 in
/-- C6 counterexample: the first run groups articles 1 and 2 (titles within
the similarity threshold), keeps article 2, and curates articles 2 and 3;
re-running full curation on that already-curated, already-deduplicated output
rejects article 3 as a duplicate of article 2 (their titles also exceed the
threshold, but anchor-based grouping never compared them in the first run),
so the second run removes one further article instead of zero. -/
theorem C6_counterexample_second_run_rejects :
    ((AutomatedCurator.full_curation
        ((AutomatedCurator.full_curation [c6_first, c6_second, c6_third]).1.map
          (fun c => c.original_data))).2.map
      (fun sa => sa.rejection_reason)) = ["duplicate"] := by
  with_unfolding_all decide

set_option maxRecDepth 100000 in
set_option maxHeartbeats 4000000 in
/-- Witness for the amended C6 at the counterexample batch: the record the
second run rejects indeed carries the "duplicate" reason. -/
theorem C6_amended_rerun_rejects_only_duplicates_witness :
    (AutomatedCurator.finalize_article
      ((AutomatedCurator.full_curation [c6_first, c6_second, c6_third]).1.map
        (fun c => c.original_data)) 1).rejection_reason = "duplicate" :=
  C6_amended_rerun_rejects_only_duplicates [c6_first, c6_second, c6_third] _
    (by with_unfolding_all decide)

theorem str_of_length_zero (s : String) (h : s.length = 0) : s = "" := by
  cases s with
  | mk data =>
    have hd : data = [] := List.length_eq_zero.1 h
    rw [hd]

/-- Appending to a non-empty string stays non-empty. -/
theorem str_append_ne_empty (s t : String) (h : s ≠ "") : (s ++ t) ≠ "" := by
  intro hc
  have hl := congrArg String.length hc
  rw [String.length_append] at hl
  have h0 : ("" : String).length = 0 := rfl
  rw [h0] at hl
  exact h (str_of_length_zero s (by omega))

/-- A curated article whose enhancement fails at every attempt. -/
def c8_article : Article := { title := "nouvelle loi" }

/-- C8 counterexample: in the automated engine, a curated article whose
enhancement fails (process_single_article returns None) is dropped from the
published output entirely — the batch output is empty although one curated
article was handed in — instead of appearing with placeholder fields. -/
theorem C8_counterexample_failed_article_dropped :
    (AIEngine.batch_process_articles (fun _ => (none : Option ℕ))
      { daily_cost := 0, daily_api_calls := 0 } [c8_article]).1 = [] := by
  with_unfolding_all decide

open BackupProcessor in
/-- C8 amended: in the backup enhancement stage every attempted curated
article (among the first 30 and with a non-empty title) appears in the
output, and its four simplified title/summary fields are always present
strings: a title in the pre-verified seed set returns its stored seed entry
(whose fields are all non-empty) without any external call; without a client
the fields are the marked non-empty placeholder texts; and when every
external call fails the fields are exactly the marked placeholder defaults.
The automated engine, by contrast, omits a failed article from its output
(see the counterexample). -/
theorem C8_amended_backup_fields_always_present (hasClient : Bool)
    (oracle : String → ℕ → ℕ → Option String) (titles : List String)
    (t : String) :
    (pre_designed_data.all (fun e =>
        e.2.simplified_english_title != "" &&
        e.2.simplified_french_title != "" &&
        e.2.english_summary != "" &&
        e.2.french_summary != "")) = true
    ∧ (∀ c, lookup_seed t = some c →
        get_ai_generated_content hasClient (oracle t) t = c)
    ∧ (lookup_seed t = none →
        get_ai_generated_content false (oracle t) t
          = get_placeholder_content t)
    ∧ (lookup_seed t = none →
        get_ai_generated_content true (fun _ _ => none) t
          = { simplified_english_title := eng_title_default
              simplified_french_title := fr_title_default
              english_summary := eng_summary_default
              french_summary := fr_summary_default })
    ∧ ((get_placeholder_content t).simplified_english_title ≠ ""
        ∧ (get_placeholder_content t).simplified_french_title ≠ ""
        ∧ (get_placeholder_content t).english_summary ≠ ""
        ∧ (get_placeholder_content t).french_summary ≠ "")
    ∧ (t ∈ titles.take MAX_ARTICLES_TO_PROCESS → t ≠ "" →
        ∃ e ∈ process_articles hasClient oracle titles,
          e.original_article_title = t) := by
  refine ⟨by decide, ?_, ?_, ?_, ?_, ?_⟩
  · intro c hc
    simp only [get_ai_generated_content, hc]
  · intro hl
    simp only [get_ai_generated_content, hl]
    rfl
  · intro hl
    simp only [get_ai_generated_content, hl]
    rfl
  · refine ⟨?_, ?_, ?_, ?_⟩
    · exact str_append_ne_empty _ _ (by decide)
    · exact str_append_ne_empty _ _ (by decide)
    · exact str_append_ne_empty _ _
        (str_append_ne_empty _ _ (by decide))
    · exact str_append_ne_empty _ _
        (str_append_ne_empty _ _ (by decide))
  · intro hmem htne
    refine ⟨{ original_article_title := t
              simplified_english_title :=
                (get_ai_generated_content hasClient (oracle t) t).simplified_english_title
              simplified_french_title :=
                (get_ai_generated_content hasClient (oracle t) t).simplified_french_title
              english_summary :=
                (get_ai_generated_content hasClient (oracle t) t).english_summary
              french_summary :=
                (get_ai_generated_content hasClient (oracle t) t).french_summary },
        List.mem_filterMap.2 ⟨t, hmem, ?_⟩, rfl⟩
    rw [if_neg htne]

/-- Witness for the amended C8: for a non-seed title with an unavailable
service and with every call failing, the output fields are exactly the
marked placeholders, and the article still appears in the published output. -/
theorem C8_amended_backup_fields_always_present_witness :
    BackupProcessor.get_ai_generated_content true (fun _ _ => none) "abc"
      = { simplified_english_title := BackupProcessor.eng_title_default
          simplified_french_title := BackupProcessor.fr_title_default
          english_summary := BackupProcessor.eng_summary_default
          french_summary := BackupProcessor.fr_summary_default }
    ∧ ∃ e ∈ BackupProcessor.process_articles true (fun _ _ _ => none) ["abc"],
        e.original_article_title = "abc" := by
  have h := C8_amended_backup_fields_always_present true (fun _ _ _ => none)
    ["abc"] "abc"
  exact ⟨h.2.2.2.1 (by decide), h.2.2.2.2.2 (by decide) (by decide)⟩
